import Mathlib

/-!
The dhcp6 packet builder.

A shallow embedding of `dhcp6/packet_builder.go`: the lease-timer calculator,
the identity-association matcher, the five reply assemblers and the
`BuildResponse` dispatcher, followed by the properties proved about them.

Conventions of the embedding:
* `[]byte` is `List UInt8`; `uint32`/`uint16`/`uint64` values are `Nat`, with an
  explicit `% 2 ^ w` where the Go arithmetic can wrap;
* a Go `error` value is `Option GoError` (`none` is `nil`);
* a run-time panic is an explicit outcome (`none`, or `Outcome.panicked`);
* the collaborators are records of functions, and `BuildResponse` returns the
  list of collaborator calls it made together with its outcome.
-/

namespace dhcp6

/-- Go `[]byte`. -/
abbrev Bytes := List UInt8

/-- Go `net.IP`, itself a `[]byte`. -/
abbrev IP := List UInt8

/-- A non-nil Go `error`; `Error` is the text its `Error()` method returns. -/
structure GoError where
  Error : String
deriving DecidableEq, Repr

/-- Modelled from the spec: the message-type enumeration of `Packet`
("Solicit, Request, InformationRequest, Release, Advertise, Reply"), declared
outside `packet_builder.go`. `MsgOther` stands for every further value of the
underlying integer type. -/
inductive MessageType where
  | MsgSolicit
  | MsgAdvertise
  | MsgRequest
  | MsgReply
  | MsgRelease
  | MsgInformationRequest
  | MsgOther (code : Nat)
deriving DecidableEq, Repr

/-- Modelled from the spec: the option codes used by the assemblers, declared
outside `packet_builder.go`; only their being distinct is used. -/
inductive OptionCode where
  | OptClientId
  | OptServerId
  | OptIaNa
  | OptIaAddr
  | OptStatusCode
  | OptVendorClass
  | OptBootfileUrl
  | OptPreference
  | OptRecursiveDns
deriving DecidableEq, Repr

/-- Modelled from the spec: the option constructors `MakeOption`,
`MakeIaNaOption`, `MakeIaAddrOption`, `MakeStatusOption` and
`MakeDNSServersOption` are declared outside `packet_builder.go` (the spec leaves
the byte-level framing to a wire-format library). Each is kept as a constructor
recording the arguments it was called with. -/
inductive DhcpOption where
  | MakeOption (id : OptionCode) (value : Bytes)
  | MakeIaNaOption (iaid : Bytes) (t1 t2 : Nat) (iaOption : DhcpOption)
  | MakeIaAddrOption (addr : IP) (preferredLifetime validLifetime : Nat)
  | MakeStatusOption (statusCode : Nat) (message : String)
  | MakeDNSServersOption (addresses : List IP)
deriving DecidableEq, Repr

open MessageType OptionCode DhcpOption

/-- The option code of an option. -/
def DhcpOption.ID : DhcpOption → OptionCode
  | MakeOption id _ => id
  | MakeIaNaOption _ _ _ _ => OptIaNa
  | MakeIaAddrOption _ _ _ => OptIaAddr
  | MakeStatusOption _ _ => OptStatusCode
  | MakeDNSServersOption _ => OptRecursiveDns

/-- Modelled from the spec: `Options` is "an ordered, append-only collection of
protocol options"; the type and its `AddOption` are declared outside
`packet_builder.go`. -/
abbrev Options := List DhcpOption

/-- Modelled from the spec: `AddOption` appends, insertion order being the wire
order. -/
def Options.AddOption (o : Options) (option : DhcpOption) : Options :=
  o ++ [option]

/-- The `[3]byte` transaction identifier. -/
abbrev TransactionID := UInt8 × UInt8 × UInt8

/-- The `Packet` struct; the Go field `Type` is `MsgType` here. -/
structure Packet where
  MsgType : MessageType
  TransactionID : TransactionID
  Options : Options
deriving DecidableEq, Repr

/-- The accessors `ClientId`, `ClientArchType` and `IaNaIds` of the options of a
decoded request are declared outside `packet_builder.go`; they are parameters of
the embedding. -/
structure OptionsAccessors where
  ClientId : Options → Bytes
  ClientArchType : Options → Nat
  IaNaIds : Options → List Bytes

/-- The fields of `IdentityAssociation` that the builder reads. The Go slices
hold pointers; they are taken to be non-nil. -/
structure IdentityAssociation where
  InterfaceId : Bytes
  IpAddress : IP
deriving DecidableEq, Repr

/-- The `BootConfiguration` collaborator. `GetBootUrl` returns the Go pair
`([]byte, error)`; a nil preference slice is `none`. -/
structure BootConfiguration where
  GetBootUrl : Bytes → Nat → Bytes × Option GoError
  GetPreference : Option Bytes
  GetRecursiveDns : List IP

/-- The `AddressPool` collaborator. -/
structure AddressPool where
  ReserveAddresses : Bytes → List Bytes → List IdentityAssociation × Option GoError
  ReleaseAddresses : Bytes → List Bytes → Option GoError

/-- The `PacketBuilder` struct; the lifetimes are `uint32`. -/
structure PacketBuilder where
  ServerDuid : Bytes
  PreferredLifetime : Nat
  ValidLifetime : Nat
deriving DecidableEq, Repr

/-- `MakePacketBuilder`: stores its three arguments. -/
def MakePacketBuilder (serverDuid : Bytes) (preferredLifetime validLifetime : Nat) :
    PacketBuilder :=
  { ServerDuid := serverDuid, PreferredLifetime := preferredLifetime,
    ValidLifetime := validLifetime }

/-- `calculateT1`: `b.PreferredLifetime / 2`. -/
def PacketBuilder.calculateT1 (b : PacketBuilder) : Nat :=
  b.PreferredLifetime / 2

/-- `calculateT2`: `(b.PreferredLifetime * 4)/5`, the product being a `uint32`. -/
def PacketBuilder.calculateT2 (b : PacketBuilder) : Nat :=
  (b.PreferredLifetime * 4 % 2 ^ 32) / 5

/-- `ExtractLLAddressOrId`; `none` is the index-out-of-range panic.
`optClientId[0:2]` needs two bytes; when the slice is shorter than two bytes but
its capacity is not, Go reads on, and then panics at `optClientId[k:]` with
`k ≥ 2` in every branch, so the outcome is the same. -/
def PacketBuilder.ExtractLLAddressOrId (_b : PacketBuilder) (optClientId : Bytes) :
    Option Bytes :=
  match optClientId with
  | b0 :: b1 :: _ =>
    let idType := b0.toNat * 256 + b1.toNat
    if idType = 1 then
      if 8 ≤ optClientId.length then some (optClientId.drop 8) else none
    else if idType = 3 then
      if 4 ≤ optClientId.length then some (optClientId.drop 4) else none
    else
      some (optClientId.drop 2)
  | _ => none

/-- One step of `hash/fnv`'s 64-bit FNV-1a: xor the byte in, multiply by the
prime, keep 64 bits. -/
def fnv64aStep (hash : Nat) (c : UInt8) : Nat :=
  (hash ^^^ c.toNat) * 1099511628211 % 2 ^ 64

/-- `calculateIaIdHash`: `fnv.New64a()`, `Write`, `Sum64()`. -/
def calculateIaIdHash (interfaceId : Bytes) : Nat :=
  interfaceId.foldl fnv64aStep 14695981039346656037

/-- `iasWithoutAddesses`: the `map[uint64]bool` is the list of its keys. -/
def iasWithoutAddesses (availableAssociations : List IdentityAssociation)
    (allIas : List Bytes) : List Bytes :=
  let iasWithAddresses : List Nat :=
    availableAssociations.foldl
      (fun m association => calculateIaIdHash association.InterfaceId :: m) []
  allIas.foldl
    (fun ret ia => if calculateIaIdHash ia ∈ iasWithAddresses then ret else ret ++ [ia]) []

/-- The value of the HTTPClient vendor-class option. -/
def httpClientVendorClass : Bytes :=
  [0, 0, 0, 0, 0, 10, 72, 84, 84, 80, 67, 108, 105, 101, 110, 116]

/-- The loop adding one IA block with a nested address option per association. -/
def PacketBuilder.addAssociations (b : PacketBuilder) (ret_options : Options)
    (associations : List IdentityAssociation) : Options :=
  associations.foldl
    (fun o association =>
      o.AddOption (MakeIaNaOption association.InterfaceId b.calculateT1 b.calculateT2
        (MakeIaAddrOption association.IpAddress b.PreferredLifetime b.ValidLifetime)))
    ret_options

/-- The `if 0x10 == clientArchType` block. -/
def addVendorClass (ret_options : Options) (clientArchType : Nat) : Options :=
  if 0x10 = clientArchType then
    ret_options.AddOption (MakeOption OptVendorClass httpClientVendorClass)
  else ret_options

/-- `MakeMsgAdvertise`. -/
def PacketBuilder.MakeMsgAdvertise (b : PacketBuilder) (transactionId : TransactionID)
    (clientId : Bytes) (clientArchType : Nat) (associations : List IdentityAssociation)
    (bootFileUrl : Bytes) (preference : Option Bytes) (dnsServers : List IP) : Packet :=
  let ret_options : Options := []
  let ret_options := ret_options.AddOption (MakeOption OptClientId clientId)
  let ret_options := b.addAssociations ret_options associations
  let ret_options := ret_options.AddOption (MakeOption OptServerId b.ServerDuid)
  let ret_options := addVendorClass ret_options clientArchType
  let ret_options := ret_options.AddOption (MakeOption OptBootfileUrl bootFileUrl)
  let ret_options :=
    match preference with
    | some p => ret_options.AddOption (MakeOption OptPreference p)
    | none => ret_options
  let ret_options := ret_options.AddOption (MakeDNSServersOption dnsServers)
  { MsgType := MsgAdvertise, TransactionID := transactionId, Options := ret_options }

/-- The second loop of `MakeMsgReply`: one IA block with a nested status option
per identifier. `err.Error()` on a nil `err` panics (`none`), at the first
iteration. -/
def PacketBuilder.addFailedIas (b : PacketBuilder) (ret_options : Options)
    (iasWithoutAddresses : List Bytes) (err : Option GoError) : Option Options :=
  iasWithoutAddresses.foldlM
    (fun o ia =>
      match err with
      | none => none
      | some e =>
        some (o.AddOption (MakeIaNaOption ia b.calculateT1 b.calculateT2
          (MakeStatusOption 2 e.Error))))
    ret_options

/-- `MakeMsgReply`; `none` is the panic of `err.Error()` on a nil `err`. -/
def PacketBuilder.MakeMsgReply (b : PacketBuilder) (transactionId : TransactionID)
    (clientId : Bytes) (clientArchType : Nat) (associations : List IdentityAssociation)
    (iasWithoutAddresses : List Bytes) (bootFileUrl : Bytes) (dnsServers : List IP)
    (err : Option GoError) : Option Packet :=
  let ret_options : Options := []
  let ret_options := ret_options.AddOption (MakeOption OptClientId clientId)
  let ret_options := b.addAssociations ret_options associations
  match b.addFailedIas ret_options iasWithoutAddresses err with
  | none => none
  | some ret_options =>
    let ret_options := ret_options.AddOption (MakeOption OptServerId b.ServerDuid)
    let ret_options := addVendorClass ret_options clientArchType
    let ret_options := ret_options.AddOption (MakeOption OptBootfileUrl bootFileUrl)
    let ret_options := ret_options.AddOption (MakeDNSServersOption dnsServers)
    some { MsgType := MsgReply, TransactionID := transactionId, Options := ret_options }

/-- `MakeMsgInformationRequestReply`. -/
def PacketBuilder.MakeMsgInformationRequestReply (b : PacketBuilder)
    (transactionId : TransactionID) (clientId : Bytes) (clientArchType : Nat)
    (bootFileUrl : Bytes) (dnsServers : List IP) : Packet :=
  let ret_options : Options := []
  let ret_options := ret_options.AddOption (MakeOption OptClientId clientId)
  let ret_options := ret_options.AddOption (MakeOption OptServerId b.ServerDuid)
  let ret_options := addVendorClass ret_options clientArchType
  let ret_options := ret_options.AddOption (MakeOption OptBootfileUrl bootFileUrl)
  let ret_options := ret_options.AddOption (MakeDNSServersOption dnsServers)
  { MsgType := MsgReply, TransactionID := transactionId, Options := ret_options }

/-- Go `make([]byte, n, n)`: `n` zero bytes. -/
def makeBytes (n : Nat) : Bytes :=
  List.replicate n 0

/-- Go `copy(dst, src)`: the first `min (len dst) (len src)` bytes of `dst` are
overwritten; the result is the new content of `dst`. -/
def copyBytes (dst src : Bytes) : Bytes :=
  src.take dst.length ++ dst.drop src.length

/-- Go `[]byte(s)` for a string: its UTF-8 bytes. -/
def stringBytes (s : String) : Bytes :=
  s.data.flatMap String.utf8EncodeChar

/-- `MakeMsgReleaseReply`; `copy(v[2:], ...)` writes through to `v`. -/
def PacketBuilder.MakeMsgReleaseReply (b : PacketBuilder) (transactionId : TransactionID)
    (clientId : Bytes) : Packet :=
  let ret_options : Options := []
  let ret_options := ret_options.AddOption (MakeOption OptClientId clientId)
  let ret_options := ret_options.AddOption (MakeOption OptServerId b.ServerDuid)
  let v := makeBytes 19
  let v := v.take 2 ++ copyBytes (v.drop 2) (stringBytes "Release received.")
  let ret_options := ret_options.AddOption (MakeOption OptStatusCode v)
  { MsgType := MsgReply, TransactionID := transactionId, Options := ret_options }

/-- `MakeMsgAdvertiseWithNoAddrsAvailable`; `none` is the panic of `err.Error()`
on a nil `err`. -/
def PacketBuilder.MakeMsgAdvertiseWithNoAddrsAvailable (b : PacketBuilder)
    (transactionId : TransactionID) (clientId : Bytes) (err : Option GoError) :
    Option Packet :=
  let ret_options : Options := []
  let ret_options := ret_options.AddOption (MakeOption OptClientId clientId)
  let ret_options := ret_options.AddOption (MakeOption OptServerId b.ServerDuid)
  match err with
  | none => none
  | some e =>
    let ret_options := ret_options.AddOption (MakeStatusOption 2 e.Error)
    some { MsgType := MsgAdvertise, TransactionID := transactionId, Options := ret_options }

/-- A call `BuildResponse` made on one of its collaborators. -/
inductive Call where
  | GetBootUrl (id : Bytes) (clientArchType : Nat)
  | GetPreference
  | GetRecursiveDns
  | ReserveAddresses (clientId : Bytes) (interfaceIds : List Bytes)
  | ReleaseAddresses (clientId : Bytes) (interfaceIds : List Bytes)
deriving DecidableEq, Repr

/-- How a call of `BuildResponse` ends: with a panic, or by returning the Go pair
`(*Packet, error)`, each of which may be nil. -/
inductive Outcome where
  | panicked
  | returned (packet : Option Packet) (err : Option GoError)
deriving DecidableEq, Repr

/-- A run of `BuildResponse`: the collaborator calls it made, in order, and how
it ended. -/
structure Run where
  calls : List Call
  outcome : Outcome
deriving DecidableEq, Repr

/-- The outcome of `return p, err` where building `p` may have panicked. -/
def Outcome.ofPacket (p : Option Packet) (err : Option GoError) : Outcome :=
  match p with
  | none => Outcome.panicked
  | some q => Outcome.returned (some q) err

/-- `BuildResponse`. Arguments are evaluated left to right, so the collaborator
calls in an argument list are made before the assembler runs. -/
def PacketBuilder.BuildResponse (acc : OptionsAccessors) (b : PacketBuilder) (pkt : Packet)
    (configuration : BootConfiguration) (addresses : AddressPool) : Run :=
  let clientId := acc.ClientId pkt.Options
  let clientArchType := acc.ClientArchType pkt.Options
  let iaNaIds := acc.IaNaIds pkt.Options
  match pkt.MsgType with
  | MsgSolicit =>
    match b.ExtractLLAddressOrId clientId with
    | none => ⟨[], Outcome.panicked⟩
    | some id =>
      match configuration.GetBootUrl id clientArchType with
      | (_, some err) => ⟨[Call.GetBootUrl id clientArchType], Outcome.returned none (some err)⟩
      | (bootFileUrl, none) =>
        match addresses.ReserveAddresses clientId iaNaIds with
        | (_, some err) =>
          ⟨[Call.GetBootUrl id clientArchType, Call.ReserveAddresses clientId iaNaIds],
            Outcome.ofPacket
              (b.MakeMsgAdvertiseWithNoAddrsAvailable pkt.TransactionID clientId (some err))
              (some err)⟩
        | (associations, none) =>
          ⟨[Call.GetBootUrl id clientArchType, Call.ReserveAddresses clientId iaNaIds,
              Call.GetPreference, Call.GetRecursiveDns],
            Outcome.returned
              (some (b.MakeMsgAdvertise pkt.TransactionID clientId clientArchType associations
                bootFileUrl configuration.GetPreference configuration.GetRecursiveDns))
              none⟩
  | MsgRequest =>
    match b.ExtractLLAddressOrId clientId with
    | none => ⟨[], Outcome.panicked⟩
    | some id =>
      match configuration.GetBootUrl id clientArchType with
      | (_, some err) => ⟨[Call.GetBootUrl id clientArchType], Outcome.returned none (some err)⟩
      | (bootFileUrl, none) =>
        match addresses.ReserveAddresses clientId iaNaIds with
        | (associations, err) =>
          ⟨[Call.GetBootUrl id clientArchType, Call.ReserveAddresses clientId iaNaIds,
              Call.GetRecursiveDns],
            Outcome.ofPacket
              (b.MakeMsgReply pkt.TransactionID clientId clientArchType associations
                (iasWithoutAddesses associations iaNaIds) bootFileUrl
                configuration.GetRecursiveDns err)
              err⟩
  | MsgInformationRequest =>
    match b.ExtractLLAddressOrId clientId with
    | none => ⟨[], Outcome.panicked⟩
    | some id =>
      match configuration.GetBootUrl id clientArchType with
      | (_, some err) => ⟨[Call.GetBootUrl id clientArchType], Outcome.returned none (some err)⟩
      | (bootFileUrl, none) =>
        ⟨[Call.GetBootUrl id clientArchType, Call.GetRecursiveDns],
          Outcome.returned
            (some (b.MakeMsgInformationRequestReply pkt.TransactionID clientId clientArchType
              bootFileUrl configuration.GetRecursiveDns))
            none⟩
  | MsgRelease =>
    ⟨[Call.ReleaseAddresses clientId iaNaIds],
      Outcome.returned (some (b.MakeMsgReleaseReply pkt.TransactionID clientId)) none⟩
  | _ => ⟨[], Outcome.returned none none⟩

/-! Pieces of the option lists the assemblers build -/

/-- The options the `if 0x10 == clientArchType` block adds. -/
def vendorClassOptions (clientArchType : Nat) : Options :=
  if 0x10 = clientArchType then [MakeOption OptVendorClass httpClientVendorClass] else []

/-- The IA block of a granted association. -/
def PacketBuilder.grantedBlock (b : PacketBuilder) (a : IdentityAssociation) : DhcpOption :=
  MakeIaNaOption a.InterfaceId b.calculateT1 b.calculateT2
    (MakeIaAddrOption a.IpAddress b.PreferredLifetime b.ValidLifetime)

/-- The IA block of an identifier that received no address. -/
def PacketBuilder.failedBlock (b : PacketBuilder) (message : String) (ia : Bytes) :
    DhcpOption :=
  MakeIaNaOption ia b.calculateT1 b.calculateT2 (MakeStatusOption 2 message)

/-! Concrete data used in the closed statements -/

/-- An eight-byte identifier; `collidingIaIdB` has the same FNV-1a hash. -/
def collidingIaIdA : Bytes := [193, 219, 126, 152, 207, 15, 213, 201]

/-- An eight-byte identifier other than `collidingIaIdA` with the same hash. -/
def collidingIaIdB : Bytes := [40, 123, 128, 192, 234, 240, 73, 104]

/-- Accessors of a decoded request that yield the given client id, architecture
type and requested identifiers. -/
def fixedAccessors (clientId : Bytes) (clientArchType : Nat) (iaNaIds : List Bytes) :
    OptionsAccessors :=
  { ClientId := fun _ => clientId, ClientArchType := fun _ => clientArchType,
    IaNaIds := fun _ => iaNaIds }

/-- A DUID-LL client id (type 3) with a six-byte link-layer address. -/
def sampleClientId : Bytes := [0, 3, 0, 1, 2, 4, 6, 8, 10, 12]

/-- Accessors of a request from `sampleClientId`, architecture 0x10, asking for
the identifiers `[0, 0, 0, 1]` and `[0, 0, 0, 2]`. -/
def sampleAccessors : OptionsAccessors :=
  fixedAccessors sampleClientId 0x10 [[0, 0, 0, 1], [0, 0, 0, 2]]

/-- A builder with a one-hour preferred and a two-hour valid lifetime. -/
def sampleBuilder : PacketBuilder := MakePacketBuilder [0, 3, 0, 1, 9, 9] 3600 7200

/-- A request packet of the given type. -/
def samplePacket (t : MessageType) : Packet :=
  { MsgType := t, TransactionID := (1, 2, 3), Options := [] }

/-- A boot configuration whose lookup succeeds. -/
def sampleConfiguration : BootConfiguration :=
  { GetBootUrl := fun _ _ => ([104, 116, 116, 112], none),
    GetPreference := some [255],
    GetRecursiveDns := [[32, 1, 72, 96]] }

/-- A boot configuration whose lookup fails. -/
def failingConfiguration : BootConfiguration :=
  { GetBootUrl := fun _ _ => ([], some { Error := "no boot policy" }),
    GetPreference := none,
    GetRecursiveDns := [] }

/-- A pool that grants `[0, 0, 0, 1]` only and reports an error. -/
def partialPool : AddressPool :=
  { ReserveAddresses := fun _ _ =>
      ([{ InterfaceId := [0, 0, 0, 1], IpAddress := [32, 1, 13, 184] }],
        some { Error := "pool exhausted" }),
    ReleaseAddresses := fun _ _ => some { Error := "unknown lease" } }

/-- A pool that grants nothing and reports an error. -/
def emptyPool : AddressPool :=
  { ReserveAddresses := fun _ _ => ([], some { Error := "pool exhausted" }),
    ReleaseAddresses := fun _ _ => none }

/-- A pool that grants nothing and reports no error. -/
def silentPool : AddressPool :=
  { ReserveAddresses := fun _ _ => ([], none),
    ReleaseAddresses := fun _ _ => none }

/-- The Reply to the sample Request when the pool serves the first identifier
only. -/
def sampleReply : Packet :=
  { MsgType := MsgReply, TransactionID := (1, 2, 3),
    Options := [MakeOption OptClientId sampleClientId,
                MakeIaNaOption [0, 0, 0, 1] 1800 2880
                  (MakeIaAddrOption [32, 1, 13, 184] 3600 7200),
                MakeIaNaOption [0, 0, 0, 2] 1800 2880 (MakeStatusOption 2 "pool exhausted"),
                MakeOption OptServerId [0, 3, 0, 1, 9, 9],
                MakeOption OptVendorClass httpClientVendorClass,
                MakeOption OptBootfileUrl [104, 116, 116, 112],
                MakeDNSServersOption [[32, 1, 72, 96]]] }

/-- `iasWithoutAddesses` with the hash function as a parameter: the same two
loops, `calculateIaIdHash` replaced by `hash`. -/
def iasWithoutAddessesWith (hash : Bytes → Nat)
    (availableAssociations : List IdentityAssociation) (allIas : List Bytes) : List Bytes :=
  let iasWithAddresses : List Nat :=
    availableAssociations.foldl (fun m association => hash association.InterfaceId :: m) []
  allIas.foldl (fun ret ia => if hash ia ∈ iasWithAddresses then ret else ret ++ [ia]) []

/-- A DUID-LLT client id (type 1): eight header bytes, then the link-layer
address. -/
def sampleClientIdLLT : Bytes := [0, 1, 0, 1, 42, 43, 44, 45, 2, 4, 6, 8, 10, 12]

/-! Lemmas on the identity-association matcher -/

theorem mem_hashKeys (G : List IdentityAssociation) (init : List Nat) (k : Nat) :
    k ∈ G.foldl (fun m association => calculateIaIdHash association.InterfaceId :: m) init ↔
      k ∈ init ∨ ∃ a ∈ G, calculateIaIdHash a.InterfaceId = k := by
  induction G generalizing init with
  | nil => simp
  | cons a G ih =>
    simp only [List.foldl_cons, ih, List.mem_cons, exists_eq_or_imp]
    constructor
    · rintro ((h | h) | h)
      · exact Or.inr (Or.inl h.symm)
      · exact Or.inl h
      · exact Or.inr (Or.inr h)
    · rintro (h | h | h)
      · exact Or.inl (Or.inr h)
      · exact Or.inl (Or.inl h.symm)
      · exact Or.inr h

theorem foldl_append_unless (p : Bytes → Prop) [DecidablePred p] (R acc : List Bytes) :
    R.foldl (fun ret ia => if p ia then ret else ret ++ [ia]) acc =
      acc ++ R.filter (fun ia => decide (¬ p ia)) := by
  induction R generalizing acc with
  | nil => simp
  | cons r R ih =>
    simp only [List.foldl_cons, ih]
    by_cases h : p r
    · simp [h]
    · simp [h]

/-- What the matcher computes: the requested identifiers whose hash is the hash
of no granted identifier, in request order. -/
theorem iasWithoutAddesses_eq_filter (G : List IdentityAssociation) (R : List Bytes) :
    iasWithoutAddesses G R =
      R.filter (fun ia => decide (∀ a ∈ G, calculateIaIdHash a.InterfaceId ≠
        calculateIaIdHash ia)) := by
  unfold iasWithoutAddesses
  simp only [foldl_append_unless, List.nil_append]
  apply List.filter_congr
  intro ia _
  simp [mem_hashKeys]

theorem mem_iasWithoutAddesses (G : List IdentityAssociation) (R : List Bytes) (ia : Bytes) :
    ia ∈ iasWithoutAddesses G R ↔
      ia ∈ R ∧ ∀ a ∈ G, calculateIaIdHash a.InterfaceId ≠ calculateIaIdHash ia := by
  simp [iasWithoutAddesses_eq_filter, List.mem_filter]

/-! Lease timers -/

/-- C1 (failing input): with a preferred lifetime of 2^30 seconds the `uint32`
product wraps to 0, so `calculateT2` returns 0, not `floor (4 * P / 5)`, and T1
exceeds T2. -/
theorem calculateT2_wraps_at_two_pow_30 :
    (MakePacketBuilder [] 1073741824 1073741824).calculateT2 = 0 ∧
      4 * 1073741824 / 5 = 858993459 ∧
      (MakePacketBuilder [] 1073741824 1073741824).calculateT1 = 536870912 := by
  decide

/-- C2 (counterexample): `MakePacketBuilder` stores a valid lifetime below the
non-zero preferred lifetime as given, so the chain T1 ≤ T2 ≤ preferred ≤ valid
fails at its last link. -/
theorem MakePacketBuilder_lifetime_chain_counterexample :
    0 < (MakePacketBuilder [] 10 5).PreferredLifetime ∧
      ¬ ((MakePacketBuilder [] 10 5).calculateT1 ≤ (MakePacketBuilder [] 10 5).calculateT2 ∧
        (MakePacketBuilder [] 10 5).calculateT2 ≤ (MakePacketBuilder [] 10 5).PreferredLifetime ∧
        (MakePacketBuilder [] 10 5).PreferredLifetime ≤
          (MakePacketBuilder [] 10 5).ValidLifetime) := by
  decide

/-- C2 (amended): for a builder made with a non-zero preferred lifetime below
2^30 and a valid lifetime not below the preferred one,
T1 ≤ T2 ≤ PreferredLifetime ≤ ValidLifetime. -/
theorem MakePacketBuilder_lifetime_chain (serverDuid : Bytes)
    (preferredLifetime validLifetime : Nat) (hpos : 0 < preferredLifetime)
    (hlt : preferredLifetime < 2 ^ 30) (hle : preferredLifetime ≤ validLifetime) :
    (MakePacketBuilder serverDuid preferredLifetime validLifetime).calculateT1 ≤
        (MakePacketBuilder serverDuid preferredLifetime validLifetime).calculateT2 ∧
      (MakePacketBuilder serverDuid preferredLifetime validLifetime).calculateT2 ≤
        (MakePacketBuilder serverDuid preferredLifetime validLifetime).PreferredLifetime ∧
      (MakePacketBuilder serverDuid preferredLifetime validLifetime).PreferredLifetime ≤
        (MakePacketBuilder serverDuid preferredLifetime validLifetime).ValidLifetime := by
  have h30 : (2 : Nat) ^ 30 = 1073741824 := by norm_num
  have h32 : (2 : Nat) ^ 32 = 4294967296 := by norm_num
  simp only [MakePacketBuilder, PacketBuilder.calculateT1, PacketBuilder.calculateT2]
  rw [h30] at hlt
  rw [h32, Nat.mod_eq_of_lt (by omega)]
  omega

/-- C2 (witness): a one-hour preferred and a two-hour valid lifetime. -/
theorem MakePacketBuilder_lifetime_chain_witness :
    (MakePacketBuilder [0, 3] 3600 7200).calculateT1 ≤
        (MakePacketBuilder [0, 3] 3600 7200).calculateT2 ∧
      (MakePacketBuilder [0, 3] 3600 7200).calculateT2 ≤
        (MakePacketBuilder [0, 3] 3600 7200).PreferredLifetime ∧
      (MakePacketBuilder [0, 3] 3600 7200).PreferredLifetime ≤
        (MakePacketBuilder [0, 3] 3600 7200).ValidLifetime :=
  MakePacketBuilder_lifetime_chain [0, 3] 3600 7200 (by decide) (by decide) (by decide)

/-! The matcher against exact set difference -/

/-- C3 (counterexample): two distinct identifiers with one FNV-1a hash. With the
first granted and both requested, the matcher returns nothing, although the
second is byte-equal to no granted identifier. -/
theorem iasWithoutAddesses_collision_counterexample :
    (∀ a ∈ [IdentityAssociation.mk collidingIaIdA [32, 1]],
        a.InterfaceId ∈ [collidingIaIdA, collidingIaIdB]) ∧
      iasWithoutAddesses [IdentityAssociation.mk collidingIaIdA [32, 1]]
        [collidingIaIdA, collidingIaIdB] = [] ∧
      [collidingIaIdA, collidingIaIdB].filter
        (fun ia => decide (∀ a ∈ [IdentityAssociation.mk collidingIaIdA [32, 1]],
          a.InterfaceId ≠ ia)) = [collidingIaIdB] := by
  decide

/-- C3 (amended): when no granted identifier shares its hash with a different
requested identifier, the matcher returns exactly the requested identifiers that
are byte-equal to no granted identifier, in request order; it repeats nothing
that the request does not repeat. -/
theorem iasWithoutAddesses_exact_of_no_collision (G : List IdentityAssociation)
    (R : List Bytes)
    (hinj : ∀ a ∈ G, ∀ ia ∈ R,
      calculateIaIdHash a.InterfaceId = calculateIaIdHash ia → a.InterfaceId = ia) :
    iasWithoutAddesses G R = R.filter (fun ia => decide (∀ a ∈ G, a.InterfaceId ≠ ia)) ∧
      (R.Nodup → (iasWithoutAddesses G R).Nodup) := by
  have hEq : iasWithoutAddesses G R =
      R.filter (fun ia => decide (∀ a ∈ G, a.InterfaceId ≠ ia)) := by
    rw [iasWithoutAddesses_eq_filter]
    apply List.filter_congr
    intro ia hia
    simp only [decide_eq_decide]
    constructor
    · intro h a ha hEq
      exact h a ha (by rw [hEq])
    · intro h a ha hHash
      exact h a ha (hinj a ha ia hia hHash)
  refine ⟨hEq, fun hnd => ?_⟩
  rw [hEq]
  exact hnd.filter _

/-- C3 (witness): two four-byte identifiers, the first of them granted. -/
theorem iasWithoutAddesses_exact_of_no_collision_witness :
    iasWithoutAddesses [IdentityAssociation.mk [0, 0, 0, 1] [32, 1]]
        [[0, 0, 0, 1], [0, 0, 0, 2]] =
      [[0, 0, 0, 1], [0, 0, 0, 2]].filter
        (fun ia => decide (∀ a ∈ [IdentityAssociation.mk [0, 0, 0, 1] [32, 1]],
          a.InterfaceId ≠ ia)) ∧
      (([[0, 0, 0, 1], [0, 0, 0, 2]] : List Bytes).Nodup →
        (iasWithoutAddesses [IdentityAssociation.mk [0, 0, 0, 1] [32, 1]]
          [[0, 0, 0, 1], [0, 0, 0, 2]]).Nodup) :=
  iasWithoutAddesses_exact_of_no_collision [IdentityAssociation.mk [0, 0, 0, 1] [32, 1]]
    [[0, 0, 0, 1], [0, 0, 0, 2]] (by decide)

/-! Lemmas on the assemblers -/

theorem addAssociations_eq (b : PacketBuilder) (o : Options)
    (associations : List IdentityAssociation) :
    b.addAssociations o associations =
      o ++ associations.map (fun a =>
        MakeIaNaOption a.InterfaceId b.calculateT1 b.calculateT2
          (MakeIaAddrOption a.IpAddress b.PreferredLifetime b.ValidLifetime)) := by
  unfold PacketBuilder.addAssociations
  induction associations generalizing o with
  | nil => simp
  | cons a l ih =>
    rw [List.foldl_cons, ih]
    simp [Options.AddOption]

theorem addFailedIas_some (b : PacketBuilder) (o : Options) (ias : List Bytes) (e : GoError) :
    b.addFailedIas o ias (some e) =
      some (o ++ ias.map (fun ia =>
        MakeIaNaOption ia b.calculateT1 b.calculateT2 (MakeStatusOption 2 e.Error))) := by
  unfold PacketBuilder.addFailedIas
  induction ias generalizing o with
  | nil => simp
  | cons a l ih =>
    rw [List.foldlM_cons]
    simp only [Option.bind_eq_bind, Option.some_bind, ih]
    simp [Options.AddOption]

theorem addFailedIas_nil (b : PacketBuilder) (o : Options) (err : Option GoError) :
    b.addFailedIas o [] err = some o := by
  simp [PacketBuilder.addFailedIas]

theorem addFailedIas_none_cons (b : PacketBuilder) (o : Options) (ia : Bytes)
    (ias : List Bytes) : b.addFailedIas o (ia :: ias) none = none := by
  simp [PacketBuilder.addFailedIas]

theorem addVendorClass_eq (o : Options) (clientArchType : Nat) :
    addVendorClass o clientArchType = o ++ vendorClassOptions clientArchType := by
  unfold addVendorClass vendorClassOptions
  split <;> simp [Options.AddOption]

theorem MakeMsgReply_some (b : PacketBuilder) (tx : TransactionID) (clientId : Bytes)
    (clientArchType : Nat) (associations : List IdentityAssociation) (ias : List Bytes)
    (bootFileUrl : Bytes) (dnsServers : List IP) (e : GoError) :
    b.MakeMsgReply tx clientId clientArchType associations ias bootFileUrl dnsServers (some e) =
      some { MsgType := MsgReply, TransactionID := tx,
             Options := [MakeOption OptClientId clientId] ++ associations.map b.grantedBlock ++
               ias.map (b.failedBlock e.Error) ++ [MakeOption OptServerId b.ServerDuid] ++
               vendorClassOptions clientArchType ++
               [MakeOption OptBootfileUrl bootFileUrl, MakeDNSServersOption dnsServers] } := by
  simp only [PacketBuilder.MakeMsgReply, addAssociations_eq, addFailedIas_some,
    addVendorClass_eq, Options.AddOption, List.nil_append, List.append_assoc]
  rfl

theorem MakeMsgReply_nil_err (b : PacketBuilder) (tx : TransactionID) (clientId : Bytes)
    (clientArchType : Nat) (associations : List IdentityAssociation)
    (bootFileUrl : Bytes) (dnsServers : List IP) (err : Option GoError) :
    b.MakeMsgReply tx clientId clientArchType associations [] bootFileUrl dnsServers err =
      some { MsgType := MsgReply, TransactionID := tx,
             Options := [MakeOption OptClientId clientId] ++ associations.map b.grantedBlock ++
               [MakeOption OptServerId b.ServerDuid] ++ vendorClassOptions clientArchType ++
               [MakeOption OptBootfileUrl bootFileUrl, MakeDNSServersOption dnsServers] } := by
  simp only [PacketBuilder.MakeMsgReply, addAssociations_eq, addFailedIas_nil,
    addVendorClass_eq, Options.AddOption, List.nil_append, List.append_assoc]
  rfl

theorem MakeMsgReply_none_cons (b : PacketBuilder) (tx : TransactionID) (clientId : Bytes)
    (clientArchType : Nat) (associations : List IdentityAssociation) (ia : Bytes)
    (ias : List Bytes) (bootFileUrl : Bytes) (dnsServers : List IP) :
    b.MakeMsgReply tx clientId clientArchType associations (ia :: ias) bootFileUrl dnsServers
      none = none := by
  simp only [PacketBuilder.MakeMsgReply, addFailedIas_none_cons]

theorem MakeMsgAdvertise_eq (b : PacketBuilder) (tx : TransactionID) (clientId : Bytes)
    (clientArchType : Nat) (associations : List IdentityAssociation) (bootFileUrl : Bytes)
    (preference : Option Bytes) (dnsServers : List IP) :
    b.MakeMsgAdvertise tx clientId clientArchType associations bootFileUrl preference
        dnsServers =
      { MsgType := MsgAdvertise, TransactionID := tx,
        Options := [MakeOption OptClientId clientId] ++ associations.map b.grantedBlock ++
          [MakeOption OptServerId b.ServerDuid] ++ vendorClassOptions clientArchType ++
          [MakeOption OptBootfileUrl bootFileUrl] ++
          (match preference with
            | some p => [MakeOption OptPreference p]
            | none => []) ++
          [MakeDNSServersOption dnsServers] } := by
  cases preference <;>
    simp only [PacketBuilder.MakeMsgAdvertise, addAssociations_eq, addVendorClass_eq,
      Options.AddOption, List.nil_append, List.append_assoc, List.append_nil] <;> rfl

theorem MakeMsgInformationRequestReply_eq (b : PacketBuilder) (tx : TransactionID)
    (clientId : Bytes) (clientArchType : Nat) (bootFileUrl : Bytes) (dnsServers : List IP) :
    b.MakeMsgInformationRequestReply tx clientId clientArchType bootFileUrl dnsServers =
      { MsgType := MsgReply, TransactionID := tx,
        Options := [MakeOption OptClientId clientId, MakeOption OptServerId b.ServerDuid] ++
          vendorClassOptions clientArchType ++
          [MakeOption OptBootfileUrl bootFileUrl, MakeDNSServersOption dnsServers] } := by
  simp only [PacketBuilder.MakeMsgInformationRequestReply, addVendorClass_eq,
    Options.AddOption, List.nil_append, List.append_assoc]
  rfl

/-! The dispatcher -/

/-- C4 (failing input): a Request for `[0, 0, 0, 1]` and `[0, 0, 0, 2]` whose
boot-URL lookup succeeds and whose reservation returns no association and a nil
error. `MakeMsgReply` calls `err.Error()` for the first unserved identifier, so
`BuildResponse` panics instead of returning a Reply. -/
theorem BuildResponse_request_nil_error_panics :
    sampleBuilder.ExtractLLAddressOrId (sampleAccessors.ClientId []) =
        some [2, 4, 6, 8, 10, 12] ∧
      sampleConfiguration.GetBootUrl [2, 4, 6, 8, 10, 12] 0x10 = ([104, 116, 116, 112], none) ∧
      silentPool.ReserveAddresses sampleClientId [[0, 0, 0, 1], [0, 0, 0, 2]] = ([], none) ∧
      sampleBuilder.BuildResponse sampleAccessors (samplePacket MsgRequest)
          sampleConfiguration silentPool =
        { calls := [Call.GetBootUrl [2, 4, 6, 8, 10, 12] 0x10,
                    Call.ReserveAddresses sampleClientId [[0, 0, 0, 1], [0, 0, 0, 2]],
                    Call.GetRecursiveDns],
          outcome := Outcome.panicked } := by
  decide

/-- C5: a Solicit whose boot-URL lookup succeeds and whose reservation returns
the error `e` is answered with an Advertise holding exactly client-id, server-id
and a status option with code 2 and message `e.Error()`, and `e` is returned; no
option of the reply is an IA, vendor-class, boot-file-url, preference or DNS
option. -/
theorem BuildResponse_solicit_reservation_error (acc : OptionsAccessors) (b : PacketBuilder)
    (pkt : Packet) (configuration : BootConfiguration) (addresses : AddressPool)
    (id bootFileUrl : Bytes) (associations : List IdentityAssociation) (e : GoError)
    (hType : pkt.MsgType = MsgSolicit)
    (hId : b.ExtractLLAddressOrId (acc.ClientId pkt.Options) = some id)
    (hUrl : configuration.GetBootUrl id (acc.ClientArchType pkt.Options) = (bootFileUrl, none))
    (hRes : addresses.ReserveAddresses (acc.ClientId pkt.Options) (acc.IaNaIds pkt.Options) =
      (associations, some e)) :
    (b.BuildResponse acc pkt configuration addresses).outcome =
        Outcome.returned
          (some { MsgType := MsgAdvertise, TransactionID := pkt.TransactionID,
                  Options := [MakeOption OptClientId (acc.ClientId pkt.Options),
                              MakeOption OptServerId b.ServerDuid,
                              MakeStatusOption 2 e.Error] })
          (some e) ∧
      ∀ o ∈ [MakeOption OptClientId (acc.ClientId pkt.Options),
             MakeOption OptServerId b.ServerDuid, MakeStatusOption 2 e.Error],
        o.ID ≠ OptIaNa ∧ o.ID ≠ OptVendorClass ∧ o.ID ≠ OptBootfileUrl ∧
          o.ID ≠ OptPreference ∧ o.ID ≠ OptRecursiveDns := by
  constructor
  · simp only [PacketBuilder.BuildResponse, hType, hId, hUrl, hRes,
      PacketBuilder.MakeMsgAdvertiseWithNoAddrsAvailable, Outcome.ofPacket,
      Options.AddOption, List.nil_append, List.cons_append]
  · intro o ho
    simp only [List.mem_cons, List.mem_singleton, List.not_mem_nil, or_false] at ho
    rcases ho with rfl | rfl | rfl <;> simp [DhcpOption.ID]

/-- C5 (witness): the sample Solicit against a pool that reports "pool exhausted". -/
theorem BuildResponse_solicit_reservation_error_witness :
    (sampleBuilder.BuildResponse sampleAccessors (samplePacket MsgSolicit) sampleConfiguration
          partialPool).outcome =
        Outcome.returned
          (some { MsgType := MsgAdvertise,
                  TransactionID := (samplePacket MsgSolicit).TransactionID,
                  Options := [MakeOption OptClientId (sampleAccessors.ClientId
                                (samplePacket MsgSolicit).Options),
                              MakeOption OptServerId sampleBuilder.ServerDuid,
                              MakeStatusOption 2 (GoError.mk "pool exhausted").Error] })
          (some (GoError.mk "pool exhausted")) ∧
      ∀ o ∈ [MakeOption OptClientId (sampleAccessors.ClientId
               (samplePacket MsgSolicit).Options),
             MakeOption OptServerId sampleBuilder.ServerDuid,
             MakeStatusOption 2 (GoError.mk "pool exhausted").Error],
        o.ID ≠ OptIaNa ∧ o.ID ≠ OptVendorClass ∧ o.ID ≠ OptBootfileUrl ∧
          o.ID ≠ OptPreference ∧ o.ID ≠ OptRecursiveDns :=
  BuildResponse_solicit_reservation_error sampleAccessors sampleBuilder
    (samplePacket MsgSolicit) sampleConfiguration partialPool [2, 4, 6, 8, 10, 12]
    [104, 116, 116, 112] [{ InterfaceId := [0, 0, 0, 1], IpAddress := [32, 1, 13, 184] }]
    (GoError.mk "pool exhausted") rfl (by decide) rfl rfl

/-- C6: when `GetBootUrl` returns the error `e` for a Solicit, Request or
Information-Request, `BuildResponse` returns no packet and `e`, and the only
collaborator call it made is that `GetBootUrl`: the address pool is not
touched. -/
theorem BuildResponse_boot_url_error (acc : OptionsAccessors) (b : PacketBuilder)
    (pkt : Packet) (configuration : BootConfiguration) (addresses : AddressPool)
    (id bootFileUrl : Bytes) (e : GoError)
    (hType : pkt.MsgType = MsgSolicit ∨ pkt.MsgType = MsgRequest ∨
      pkt.MsgType = MsgInformationRequest)
    (hId : b.ExtractLLAddressOrId (acc.ClientId pkt.Options) = some id)
    (hUrl : configuration.GetBootUrl id (acc.ClientArchType pkt.Options) =
      (bootFileUrl, some e)) :
    b.BuildResponse acc pkt configuration addresses =
        { calls := [Call.GetBootUrl id (acc.ClientArchType pkt.Options)],
          outcome := Outcome.returned none (some e) } ∧
      ∀ c ∈ (b.BuildResponse acc pkt configuration addresses).calls,
        ∀ clientId ias, c ≠ Call.ReserveAddresses clientId ias ∧
          c ≠ Call.ReleaseAddresses clientId ias := by
  have hRun : b.BuildResponse acc pkt configuration addresses =
      { calls := [Call.GetBootUrl id (acc.ClientArchType pkt.Options)],
        outcome := Outcome.returned none (some e) } := by
    rcases hType with h | h | h <;>
      simp only [PacketBuilder.BuildResponse, h, hId, hUrl]
  refine ⟨hRun, ?_⟩
  rw [hRun]
  intro c hc clientId ias
  simp only [List.mem_singleton] at hc
  subst hc
  exact ⟨by simp, by simp⟩

/-- C6 (witness): the sample Request against a boot configuration whose lookup fails. -/
theorem BuildResponse_boot_url_error_witness :
    sampleBuilder.BuildResponse sampleAccessors (samplePacket MsgRequest)
          failingConfiguration partialPool =
        { calls := [Call.GetBootUrl [2, 4, 6, 8, 10, 12]
                      (sampleAccessors.ClientArchType (samplePacket MsgRequest).Options)],
          outcome := Outcome.returned none (some (GoError.mk "no boot policy")) } ∧
      ∀ c ∈ (sampleBuilder.BuildResponse sampleAccessors (samplePacket MsgRequest)
          failingConfiguration partialPool).calls,
        ∀ clientId ias, c ≠ Call.ReserveAddresses clientId ias ∧
          c ≠ Call.ReleaseAddresses clientId ias :=
  BuildResponse_boot_url_error sampleAccessors sampleBuilder (samplePacket MsgRequest)
    failingConfiguration partialPool [2, 4, 6, 8, 10, 12] [] (GoError.mk "no boot policy")
    (Or.inr (Or.inl rfl)) (by decide) rfl

/-- C7: for a Request whose boot-URL lookup succeeds and whose reservation
returns the associations `G` and the error `err`, `BuildResponse` returns a Reply
whose options are, in order: client-id; one IA block per association of `G`
(identifier, T1, T2, nested address option with the builder's lifetimes); one IA
block per identifier of `iasWithoutAddesses G` of the requested identifiers
(identifier, T1, T2, nested status option with code 2 and message `err.Error()`);
server-id; the vendor-class option when the architecture type is 0x10;
boot-file-url; DNS servers. A nil `err` has no `Error()`: it is covered when no
identifier is left without an address, and then there is no failure block. -/
theorem BuildResponse_request_reply_options (acc : OptionsAccessors) (b : PacketBuilder)
    (pkt : Packet) (configuration : BootConfiguration) (addresses : AddressPool)
    (id bootFileUrl : Bytes) (G : List IdentityAssociation) (err : Option GoError)
    (hType : pkt.MsgType = MsgRequest)
    (hId : b.ExtractLLAddressOrId (acc.ClientId pkt.Options) = some id)
    (hUrl : configuration.GetBootUrl id (acc.ClientArchType pkt.Options) = (bootFileUrl, none))
    (hRes : addresses.ReserveAddresses (acc.ClientId pkt.Options) (acc.IaNaIds pkt.Options) =
      (G, err))
    (hErr : err = none → iasWithoutAddesses G (acc.IaNaIds pkt.Options) = []) :
    (b.BuildResponse acc pkt configuration addresses).outcome =
      Outcome.returned
        (some { MsgType := MsgReply, TransactionID := pkt.TransactionID,
                Options :=
                  [MakeOption OptClientId (acc.ClientId pkt.Options)] ++
                  G.map (fun a =>
                    MakeIaNaOption a.InterfaceId b.calculateT1 b.calculateT2
                      (MakeIaAddrOption a.IpAddress b.PreferredLifetime b.ValidLifetime)) ++
                  (match err with
                    | some e =>
                      (iasWithoutAddesses G (acc.IaNaIds pkt.Options)).map (fun ia =>
                        MakeIaNaOption ia b.calculateT1 b.calculateT2
                          (MakeStatusOption 2 e.Error))
                    | none => []) ++
                  [MakeOption OptServerId b.ServerDuid] ++
                  (if acc.ClientArchType pkt.Options = 0x10 then
                    [MakeOption OptVendorClass httpClientVendorClass] else []) ++
                  [MakeOption OptBootfileUrl bootFileUrl,
                   MakeDNSServersOption configuration.GetRecursiveDns] })
        err := by
  have hv : vendorClassOptions (acc.ClientArchType pkt.Options) =
      (if acc.ClientArchType pkt.Options = 0x10 then
        [MakeOption OptVendorClass httpClientVendorClass] else []) := by
    unfold vendorClassOptions
    by_cases h : acc.ClientArchType pkt.Options = 0x10
    · simp [h]
    · have h2 : ¬ (0x10 = acc.ClientArchType pkt.Options) := fun h3 => h h3.symm
      simp [h, h2]
  cases err with
  | some e =>
    simp only [PacketBuilder.BuildResponse, hType, hId, hUrl, hRes, MakeMsgReply_some,
      Outcome.ofPacket, hv]
    rfl
  | none =>
    simp only [PacketBuilder.BuildResponse, hType, hId, hUrl, hRes, hErr rfl,
      MakeMsgReply_nil_err, Outcome.ofPacket, hv, List.append_nil]
    rfl

/-- C7 (witness): the sample Request, of which the pool serves the first
identifier only. -/
theorem BuildResponse_request_reply_options_witness :
    (sampleBuilder.BuildResponse sampleAccessors (samplePacket MsgRequest) sampleConfiguration
        partialPool).outcome =
      Outcome.returned
        (some { MsgType := MsgReply, TransactionID := (samplePacket MsgRequest).TransactionID,
                Options :=
                  [MakeOption OptClientId
                    (sampleAccessors.ClientId (samplePacket MsgRequest).Options)] ++
                  [IdentityAssociation.mk [0, 0, 0, 1] [32, 1, 13, 184]].map (fun a =>
                    MakeIaNaOption a.InterfaceId sampleBuilder.calculateT1
                      sampleBuilder.calculateT2
                      (MakeIaAddrOption a.IpAddress sampleBuilder.PreferredLifetime
                        sampleBuilder.ValidLifetime)) ++
                  (match some (GoError.mk "pool exhausted") with
                    | some e =>
                      (iasWithoutAddesses [IdentityAssociation.mk [0, 0, 0, 1] [32, 1, 13, 184]]
                        (sampleAccessors.IaNaIds (samplePacket MsgRequest).Options)).map
                        (fun ia =>
                          MakeIaNaOption ia sampleBuilder.calculateT1 sampleBuilder.calculateT2
                            (MakeStatusOption 2 e.Error))
                    | none => []) ++
                  [MakeOption OptServerId sampleBuilder.ServerDuid] ++
                  (if sampleAccessors.ClientArchType (samplePacket MsgRequest).Options = 0x10
                    then [MakeOption OptVendorClass httpClientVendorClass] else []) ++
                  [MakeOption OptBootfileUrl [104, 116, 116, 112],
                   MakeDNSServersOption sampleConfiguration.GetRecursiveDns] })
        (some (GoError.mk "pool exhausted")) :=
  BuildResponse_request_reply_options sampleAccessors sampleBuilder (samplePacket MsgRequest)
    sampleConfiguration partialPool [2, 4, 6, 8, 10, 12] [104, 116, 116, 112]
    [IdentityAssociation.mk [0, 0, 0, 1] [32, 1, 13, 184]] (some (GoError.mk "pool exhausted"))
    rfl (by decide) rfl rfl (fun h => Option.noConfusion h)

/-! The two groups of identifiers of a Reply -/

/-- C8 (counterexample): with `collidingIaIdA` granted and both colliding
identifiers requested, `collidingIaIdB` is in neither group: it is dropped by the
matcher although no granted association carries it. -/
theorem iasWithoutAddesses_partition_counterexample :
    ¬ ∀ ia ∈ [collidingIaIdA, collidingIaIdB],
        (ia ∈ iasWithoutAddesses [IdentityAssociation.mk collidingIaIdA [32, 1]]
              [collidingIaIdA, collidingIaIdB] ∧
            ia ∉ [IdentityAssociation.mk collidingIaIdA [32, 1]].map
              IdentityAssociation.InterfaceId) ∨
          (ia ∉ iasWithoutAddesses [IdentityAssociation.mk collidingIaIdA [32, 1]]
              [collidingIaIdA, collidingIaIdB] ∧
            ia ∈ [IdentityAssociation.mk collidingIaIdA [32, 1]].map
              IdentityAssociation.InterfaceId) := by
  decide

/-- C8 (amended): for all `G` and `R`, no element of `iasWithoutAddesses G R` is
byte-equal to the `InterfaceId` of an association of `G`; and when no granted
identifier shares its hash with a different requested identifier, every element
of `R` is in exactly one of the two groups. -/
theorem iasWithoutAddesses_partition (G : List IdentityAssociation) (R : List Bytes) :
    (∀ ia ∈ iasWithoutAddesses G R, ∀ a ∈ G, a.InterfaceId ≠ ia) ∧
      ((∀ a ∈ G, ∀ ia ∈ R,
          calculateIaIdHash a.InterfaceId = calculateIaIdHash ia → a.InterfaceId = ia) →
        ∀ ia ∈ R,
          (ia ∈ iasWithoutAddesses G R ∧ ia ∉ G.map IdentityAssociation.InterfaceId) ∨
            (ia ∉ iasWithoutAddesses G R ∧ ia ∈ G.map IdentityAssociation.InterfaceId)) := by
  constructor
  · intro ia hia a ha hEq
    rw [mem_iasWithoutAddesses] at hia
    exact hia.2 a ha (by rw [hEq])
  · intro hinj ia hia
    by_cases hmem : ia ∈ G.map IdentityAssociation.InterfaceId
    · right
      refine ⟨?_, hmem⟩
      rw [mem_iasWithoutAddesses]
      rintro ⟨_, hne⟩
      obtain ⟨a, ha, rfl⟩ := List.mem_map.mp hmem
      exact hne a ha rfl
    · left
      refine ⟨?_, hmem⟩
      rw [mem_iasWithoutAddesses]
      refine ⟨hia, fun a ha hHash => hmem ?_⟩
      exact List.mem_map.mpr ⟨a, ha, hinj a ha ia hia hHash⟩

/-- C8 (witness): two four-byte identifiers, the first of them granted. -/
theorem iasWithoutAddesses_partition_witness :
    ∀ ia ∈ ([[0, 0, 0, 1], [0, 0, 0, 2]] : List Bytes),
      (ia ∈ iasWithoutAddesses [IdentityAssociation.mk [0, 0, 0, 1] [32, 1]]
            [[0, 0, 0, 1], [0, 0, 0, 2]] ∧
          ia ∉ [IdentityAssociation.mk [0, 0, 0, 1] [32, 1]].map
            IdentityAssociation.InterfaceId) ∨
        (ia ∉ iasWithoutAddesses [IdentityAssociation.mk [0, 0, 0, 1] [32, 1]]
            [[0, 0, 0, 1], [0, 0, 0, 2]] ∧
          ia ∈ [IdentityAssociation.mk [0, 0, 0, 1] [32, 1]].map
            IdentityAssociation.InterfaceId) :=
  (iasWithoutAddesses_partition [IdentityAssociation.mk [0, 0, 0, 1] [32, 1]]
    [[0, 0, 0, 1], [0, 0, 0, 2]]).2 (by decide)

/-! The Release acknowledgement -/

theorem releaseStatusValue_eq :
    (makeBytes 19).take 2 ++
        copyBytes ((makeBytes 19).drop 2) (stringBytes "Release received.") =
      [0, 0, 82, 101, 108, 101, 97, 115, 101, 32, 114, 101, 99, 101, 105, 118, 101, 100,
        46] := by
  decide

/-- C10: for a Release, whatever the pool's `ReleaseAddresses` returns,
`BuildResponse` returns a nil error and a Reply whose options are exactly
client-id, server-id and one status-code option; the value of the latter has 19
bytes, the two-byte status code 0 followed by the ASCII text
"Release received.". -/
theorem BuildResponse_release (acc : OptionsAccessors) (b : PacketBuilder) (pkt : Packet)
    (configuration : BootConfiguration) (addresses : AddressPool)
    (hType : pkt.MsgType = MsgRelease) :
    (b.BuildResponse acc pkt configuration addresses).outcome =
        Outcome.returned
          (some { MsgType := MsgReply, TransactionID := pkt.TransactionID,
                  Options := [MakeOption OptClientId (acc.ClientId pkt.Options),
                              MakeOption OptServerId b.ServerDuid,
                              MakeOption OptStatusCode
                                ([0, 0] ++ stringBytes "Release received.")] })
          none ∧
      ([0, 0] ++ stringBytes "Release received.").length = 19 ∧
      [0, 0] ++ stringBytes "Release received." =
        [0, 0, 82, 101, 108, 101, 97, 115, 101, 32, 114, 101, 99, 101, 105, 118, 101, 100,
          46] := by
  have hBytes : ([0, 0] : Bytes) ++ stringBytes "Release received." =
      [0, 0, 82, 101, 108, 101, 97, 115, 101, 32, 114, 101, 99, 101, 105, 118, 101, 100,
        46] := by decide
  refine ⟨?_, ?_, hBytes⟩
  · simp only [PacketBuilder.BuildResponse, hType, PacketBuilder.MakeMsgReleaseReply,
      releaseStatusValue_eq, hBytes, Options.AddOption, List.nil_append, List.cons_append]
  · rw [hBytes]
    rfl

/-- C10 (witness): the sample Release against a pool whose release fails. -/
theorem BuildResponse_release_witness :
    (sampleBuilder.BuildResponse sampleAccessors (samplePacket MsgRelease) sampleConfiguration
          partialPool).outcome =
        Outcome.returned
          (some { MsgType := MsgReply, TransactionID := (samplePacket MsgRelease).TransactionID,
                  Options := [MakeOption OptClientId
                                (sampleAccessors.ClientId (samplePacket MsgRelease).Options),
                              MakeOption OptServerId sampleBuilder.ServerDuid,
                              MakeOption OptStatusCode
                                ([0, 0] ++ stringBytes "Release received.")] })
          none ∧
      ([0, 0] ++ stringBytes "Release received.").length = 19 ∧
      [0, 0] ++ stringBytes "Release received." =
        [0, 0, 82, 101, 108, 101, 97, 115, 101, 32, 114, 101, 99, 101, 105, 118, 101, 100,
          46] :=
  BuildResponse_release sampleAccessors sampleBuilder (samplePacket MsgRelease)
    sampleConfiguration partialPool rfl

/-! The vendor-class option -/

@[simp]
theorem ID_MakeOption (id : OptionCode) (value : Bytes) : (MakeOption id value).ID = id :=
  rfl

@[simp]
theorem ID_MakeDNSServersOption (addresses : List IP) :
    (MakeDNSServersOption addresses).ID = OptRecursiveDns :=
  rfl

@[simp]
theorem ID_grantedBlock (b : PacketBuilder) (a : IdentityAssociation) :
    (b.grantedBlock a).ID = OptIaNa :=
  rfl

theorem vendorClassOptions_of_eq {clientArchType : Nat} (h : clientArchType = 0x10) :
    vendorClassOptions clientArchType = [MakeOption OptVendorClass httpClientVendorClass] := by
  subst h
  rfl

theorem vendorClassOptions_of_ne {clientArchType : Nat} (h : clientArchType ≠ 0x10) :
    vendorClassOptions clientArchType = [] := by
  unfold vendorClassOptions
  have h2 : ¬ (0x10 = clientArchType) := fun h3 => h h3.symm
  simp [h2]

/-- What `MakeMsgReply` builds whenever it does not panic: the canonical option
list, the failure blocks being IA options. -/
theorem MakeMsgReply_shape (b : PacketBuilder) (tx : TransactionID) (clientId : Bytes)
    (clientArchType : Nat) (associations : List IdentityAssociation) (ias : List Bytes)
    (bootFileUrl : Bytes) (dnsServers : List IP) (err : Option GoError) (p : Packet)
    (h : b.MakeMsgReply tx clientId clientArchType associations ias bootFileUrl dnsServers
      err = some p) :
    ∃ failed : Options, (∀ o ∈ failed, o.ID = OptIaNa) ∧
      p = { MsgType := MsgReply, TransactionID := tx,
            Options := [MakeOption OptClientId clientId] ++ associations.map b.grantedBlock ++
              failed ++ [MakeOption OptServerId b.ServerDuid] ++
              vendorClassOptions clientArchType ++
              [MakeOption OptBootfileUrl bootFileUrl, MakeDNSServersOption dnsServers] } := by
  cases err with
  | some e =>
    rw [MakeMsgReply_some] at h
    refine ⟨ias.map (b.failedBlock e.Error), ?_, (Option.some.inj h).symm⟩
    intro o ho
    obtain ⟨ia, _, rfl⟩ := List.mem_map.mp ho
    rfl
  | none =>
    cases ias with
    | nil =>
      rw [MakeMsgReply_nil_err] at h
      refine ⟨[], by simp, ?_⟩
      rw [← Option.some.inj h]
      simp
    | cons ia ias =>
      rw [MakeMsgReply_none_cons] at h
      exact absurd h (by simp)

/-- C9 (counterexample): a Solicit with architecture type 0x10 whose reservation
fails is answered with the no-addresses Advertise, which holds no vendor-class
option. -/
theorem BuildResponse_vendor_class_counterexample :
    sampleAccessors.ClientArchType (samplePacket MsgSolicit).Options = 0x10 ∧
      (sampleBuilder.BuildResponse sampleAccessors (samplePacket MsgSolicit)
          sampleConfiguration partialPool).outcome =
        Outcome.returned
          (some { MsgType := MsgAdvertise, TransactionID := (1, 2, 3),
                  Options := [MakeOption OptClientId sampleClientId,
                              MakeOption OptServerId [0, 3, 0, 1, 9, 9],
                              MakeStatusOption 2 "pool exhausted"] })
          (some (GoError.mk "pool exhausted")) ∧
      MakeOption OptVendorClass httpClientVendorClass ∉
        [MakeOption OptClientId sampleClientId, MakeOption OptServerId [0, 3, 0, 1, 9, 9],
          MakeStatusOption 2 "pool exhausted"] := by
  decide

/-- C9 (amended): every packet `BuildResponse` returns for a Solicit, Request or
Information-Request holds the HTTPClient vendor-class option if the architecture
type is 0x10 and no vendor-class option otherwise, except the Advertise returned
together with a reservation error for a Solicit, which holds no vendor-class
option whatever the architecture type. The value of the option is the four-byte
enterprise number 0, the two-byte length 10 and the ASCII text "HTTPClient". -/
theorem BuildResponse_vendor_class (acc : OptionsAccessors) (b : PacketBuilder)
    (pkt : Packet) (configuration : BootConfiguration) (addresses : AddressPool)
    (p : Packet) (err : Option GoError)
    (hType : pkt.MsgType = MsgSolicit ∨ pkt.MsgType = MsgRequest ∨
      pkt.MsgType = MsgInformationRequest)
    (hOut : (b.BuildResponse acc pkt configuration addresses).outcome =
      Outcome.returned (some p) err) :
    ((pkt.MsgType = MsgSolicit ∧ err ≠ none) → ∀ o ∈ p.Options, o.ID ≠ OptVendorClass) ∧
      (¬ (pkt.MsgType = MsgSolicit ∧ err ≠ none) →
        (acc.ClientArchType pkt.Options = 0x10 →
          MakeOption OptVendorClass httpClientVendorClass ∈ p.Options) ∧
        (acc.ClientArchType pkt.Options ≠ 0x10 → ∀ o ∈ p.Options, o.ID ≠ OptVendorClass)) ∧
      httpClientVendorClass = [0, 0, 0, 0] ++ [0, 10] ++ stringBytes "HTTPClient" := by
  refine and_assoc.mp ⟨?_, by decide⟩
  cases hE : b.ExtractLLAddressOrId (acc.ClientId pkt.Options) with
  | none =>
    rcases hType with h | h | h <;>
      simp [PacketBuilder.BuildResponse, h, hE] at hOut
  | some id =>
    rcases hU : configuration.GetBootUrl id (acc.ClientArchType pkt.Options) with
      ⟨bootFileUrl, _ | ue⟩
    · rcases hR : addresses.ReserveAddresses (acc.ClientId pkt.Options)
        (acc.IaNaIds pkt.Options) with ⟨G, re⟩
      rcases hType with h | h | h
      · cases re with
        | none =>
          simp only [PacketBuilder.BuildResponse, h, hE, hU, hR, MakeMsgAdvertise_eq,
            Outcome.returned.injEq, Option.some.injEq] at hOut
          obtain ⟨rfl, rfl⟩ := hOut
          refine ⟨fun hc => absurd rfl hc.2, fun _ => ⟨fun ha => ?_, fun ha o ho => ?_⟩⟩
          · simp [vendorClassOptions_of_eq ha]
          · revert o
            cases hpref : configuration.GetPreference <;>
              simp [vendorClassOptions_of_ne ha, or_imp, forall_and]
        | some e =>
          simp only [PacketBuilder.BuildResponse, h, hE, hU, hR,
            PacketBuilder.MakeMsgAdvertiseWithNoAddrsAvailable, Outcome.ofPacket,
            Options.AddOption, List.nil_append, List.cons_append,
            Outcome.returned.injEq, Option.some.injEq] at hOut
          obtain ⟨rfl, rfl⟩ := hOut
          refine ⟨fun _ o ho => ?_, fun hc => absurd ⟨h, by simp⟩ hc⟩
          simp only [List.mem_cons, List.mem_singleton, List.not_mem_nil, or_false] at ho
          rcases ho with rfl | rfl | rfl <;> simp [DhcpOption.ID]
      · have hne : ¬ (pkt.MsgType = MsgSolicit ∧ err ≠ none) := by
          rw [h]
          simp
        refine ⟨fun hc => absurd hc hne, fun _ => ?_⟩
        simp only [PacketBuilder.BuildResponse, h, hE, hU, hR] at hOut
        cases hM : b.MakeMsgReply pkt.TransactionID (acc.ClientId pkt.Options)
            (acc.ClientArchType pkt.Options) G (iasWithoutAddesses G (acc.IaNaIds pkt.Options))
            bootFileUrl configuration.GetRecursiveDns re with
        | none => simp [hM, Outcome.ofPacket] at hOut
        | some q =>
          simp only [hM, Outcome.ofPacket, Outcome.returned.injEq, Option.some.injEq] at hOut
          obtain ⟨rfl, _⟩ := hOut
          obtain ⟨failed, hfailed, rfl⟩ := MakeMsgReply_shape _ _ _ _ _ _ _ _ _ _ hM
          refine ⟨fun ha => ?_, fun ha o ho => ?_⟩
          · simp [vendorClassOptions_of_eq ha]
          · revert o
            simp only [vendorClassOptions_of_ne ha, List.mem_append, or_imp, forall_and]
            refine ⟨⟨⟨⟨⟨?_, ?_⟩, ?_⟩, ?_⟩, ?_⟩, ?_⟩
            · simp
            · simp
            · intro o ho
              rw [hfailed o ho]
              simp
            · simp
            · simp
            · simp
      · have hne : ¬ (pkt.MsgType = MsgSolicit ∧ err ≠ none) := by
          rw [h]
          simp
        refine ⟨fun hc => absurd hc hne, fun _ => ?_⟩
        simp only [PacketBuilder.BuildResponse, h, hE, hU, MakeMsgInformationRequestReply_eq,
          Outcome.returned.injEq, Option.some.injEq] at hOut
        obtain ⟨rfl, _⟩ := hOut
        refine ⟨fun ha => ?_, fun ha o ho => ?_⟩
        · simp [vendorClassOptions_of_eq ha]
        · revert o
          simp [vendorClassOptions_of_ne ha, or_imp, forall_and]
    · rcases hType with h | h | h <;>
        simp [PacketBuilder.BuildResponse, h, hE, hU] at hOut

/-- C9 (witness): the sample Request, architecture type 0x10, is answered with
`sampleReply`. -/
theorem BuildResponse_vendor_class_witness :
    (((samplePacket MsgRequest).MsgType = MsgSolicit ∧
          some (GoError.mk "pool exhausted") ≠ none) →
        ∀ o ∈ sampleReply.Options, o.ID ≠ OptVendorClass) ∧
      (¬ ((samplePacket MsgRequest).MsgType = MsgSolicit ∧
          some (GoError.mk "pool exhausted") ≠ none) →
        (sampleAccessors.ClientArchType (samplePacket MsgRequest).Options = 0x10 →
          MakeOption OptVendorClass httpClientVendorClass ∈ sampleReply.Options) ∧
        (sampleAccessors.ClientArchType (samplePacket MsgRequest).Options ≠ 0x10 →
          ∀ o ∈ sampleReply.Options, o.ID ≠ OptVendorClass)) ∧
      httpClientVendorClass = [0, 0, 0, 0] ++ [0, 10] ++ stringBytes "HTTPClient" :=
  BuildResponse_vendor_class sampleAccessors sampleBuilder (samplePacket MsgRequest)
    sampleConfiguration partialPool sampleReply (some (GoError.mk "pool exhausted"))
    (Or.inr (Or.inl rfl)) (by decide)

/-! The transaction identifier -/

/-- C11: whenever `BuildResponse` returns a packet, for whatever request and
whatever the collaborators do, the packet carries the transaction identifier of
the request. -/
theorem BuildResponse_transaction_id (acc : OptionsAccessors) (b : PacketBuilder)
    (pkt : Packet) (configuration : BootConfiguration) (addresses : AddressPool)
    (p : Packet) (err : Option GoError)
    (hOut : (b.BuildResponse acc pkt configuration addresses).outcome =
      Outcome.returned (some p) err) :
    p.TransactionID = pkt.TransactionID := by
  cases hT : pkt.MsgType with
  | MsgSolicit =>
    cases hE : b.ExtractLLAddressOrId (acc.ClientId pkt.Options) with
    | none => simp [PacketBuilder.BuildResponse, hT, hE] at hOut
    | some id =>
      rcases hU : configuration.GetBootUrl id (acc.ClientArchType pkt.Options) with
        ⟨bootFileUrl, _ | ue⟩
      · rcases hR : addresses.ReserveAddresses (acc.ClientId pkt.Options)
          (acc.IaNaIds pkt.Options) with ⟨G, _ | re⟩
        · simp only [PacketBuilder.BuildResponse, hT, hE, hU, hR, MakeMsgAdvertise_eq,
            Outcome.returned.injEq, Option.some.injEq] at hOut
          obtain ⟨rfl, _⟩ := hOut
          rfl
        · simp only [PacketBuilder.BuildResponse, hT, hE, hU, hR,
            PacketBuilder.MakeMsgAdvertiseWithNoAddrsAvailable, Outcome.ofPacket,
            Outcome.returned.injEq, Option.some.injEq] at hOut
          obtain ⟨rfl, _⟩ := hOut
          rfl
      · simp [PacketBuilder.BuildResponse, hT, hE, hU] at hOut
  | MsgRequest =>
    cases hE : b.ExtractLLAddressOrId (acc.ClientId pkt.Options) with
    | none => simp [PacketBuilder.BuildResponse, hT, hE] at hOut
    | some id =>
      rcases hU : configuration.GetBootUrl id (acc.ClientArchType pkt.Options) with
        ⟨bootFileUrl, _ | ue⟩
      · rcases hR : addresses.ReserveAddresses (acc.ClientId pkt.Options)
          (acc.IaNaIds pkt.Options) with ⟨G, re⟩
        simp only [PacketBuilder.BuildResponse, hT, hE, hU, hR] at hOut
        cases hM : b.MakeMsgReply pkt.TransactionID (acc.ClientId pkt.Options)
            (acc.ClientArchType pkt.Options) G (iasWithoutAddesses G (acc.IaNaIds pkt.Options))
            bootFileUrl configuration.GetRecursiveDns re with
        | none => simp [hM, Outcome.ofPacket] at hOut
        | some q =>
          simp only [hM, Outcome.ofPacket, Outcome.returned.injEq, Option.some.injEq] at hOut
          obtain ⟨rfl, _⟩ := hOut
          obtain ⟨failed, _, rfl⟩ := MakeMsgReply_shape _ _ _ _ _ _ _ _ _ _ hM
          rfl
      · simp [PacketBuilder.BuildResponse, hT, hE, hU] at hOut
  | MsgInformationRequest =>
    cases hE : b.ExtractLLAddressOrId (acc.ClientId pkt.Options) with
    | none => simp [PacketBuilder.BuildResponse, hT, hE] at hOut
    | some id =>
      rcases hU : configuration.GetBootUrl id (acc.ClientArchType pkt.Options) with
        ⟨bootFileUrl, _ | ue⟩
      · simp only [PacketBuilder.BuildResponse, hT, hE, hU, MakeMsgInformationRequestReply_eq,
          Outcome.returned.injEq, Option.some.injEq] at hOut
        obtain ⟨rfl, _⟩ := hOut
        rfl
      · simp [PacketBuilder.BuildResponse, hT, hE, hU] at hOut
  | MsgRelease =>
    simp only [PacketBuilder.BuildResponse, hT, PacketBuilder.MakeMsgReleaseReply,
      Outcome.returned.injEq, Option.some.injEq] at hOut
    obtain ⟨rfl, _⟩ := hOut
    rfl
  | MsgAdvertise => simp [PacketBuilder.BuildResponse, hT] at hOut
  | MsgReply => simp [PacketBuilder.BuildResponse, hT] at hOut
  | MsgOther code => simp [PacketBuilder.BuildResponse, hT] at hOut

/-- C11 (witness): the Reply to the sample Request carries its transaction
identifier. -/
theorem BuildResponse_transaction_id_witness :
    sampleReply.TransactionID = (samplePacket MsgRequest).TransactionID :=
  BuildResponse_transaction_id sampleAccessors sampleBuilder (samplePacket MsgRequest)
    sampleConfiguration partialPool sampleReply (some (GoError.mk "pool exhausted"))
    (by decide)

/-! The client-id and server-id options of the assemblers -/

theorem filter_ID_eq_nil (l : Options) (c : OptionCode) (h : ∀ o ∈ l, o.ID ≠ c) :
    l.filter (fun o => decide (o.ID = c)) = [] := by
  rw [List.filter_eq_nil_iff]
  intro o ho
  simpa using h o ho

/-- The identifiers of an option list made of a client-id option, options that
are neither client-id nor server-id, a server-id option, and again options that
are neither. -/
theorem canonical_client_server_id (clientId serverDuid : Bytes) (mid tail : Options)
    (hmid : ∀ o ∈ mid, o.ID ≠ OptClientId ∧ o.ID ≠ OptServerId)
    (htail : ∀ o ∈ tail, o.ID ≠ OptClientId ∧ o.ID ≠ OptServerId) :
    ([MakeOption OptClientId clientId] ++ mid ++ [MakeOption OptServerId serverDuid] ++
        tail).head? = some (MakeOption OptClientId clientId) ∧
      ([MakeOption OptClientId clientId] ++ mid ++ [MakeOption OptServerId serverDuid] ++
        tail).filter (fun o => decide (o.ID = OptClientId)) =
          [MakeOption OptClientId clientId] ∧
      ([MakeOption OptClientId clientId] ++ mid ++ [MakeOption OptServerId serverDuid] ++
        tail).filter (fun o => decide (o.ID = OptServerId)) =
          [MakeOption OptServerId serverDuid] := by
  refine ⟨rfl, ?_, ?_⟩
  · simp [List.filter_append, List.filter_cons,
      filter_ID_eq_nil mid OptClientId (fun o ho => (hmid o ho).1),
      filter_ID_eq_nil tail OptClientId (fun o ho => (htail o ho).1)]
  · simp [List.filter_append, List.filter_cons,
      filter_ID_eq_nil mid OptServerId (fun o ho => (hmid o ho).2),
      filter_ID_eq_nil tail OptServerId (fun o ho => (htail o ho).2)]

theorem vendorClassOptions_ID (clientArchType : Nat) :
    ∀ o ∈ vendorClassOptions clientArchType, o.ID = OptVendorClass := by
  unfold vendorClassOptions
  split <;> simp

/-- C12: a packet built by any of the five assemblers has the given client id in
its first option, exactly one client-id option, holding the given client id, and
exactly one server-id option, holding the builder's `ServerDuid`. -/
theorem assemblers_client_and_server_id (b : PacketBuilder) (tx : TransactionID)
    (clientId : Bytes) (clientArchType : Nat) (associations : List IdentityAssociation)
    (ias : List Bytes) (bootFileUrl : Bytes) (preference : Option Bytes)
    (dnsServers : List IP) (err : Option GoError) (p : Packet)
    (hBuilt :
      p = b.MakeMsgAdvertise tx clientId clientArchType associations bootFileUrl preference
          dnsServers ∨
      b.MakeMsgReply tx clientId clientArchType associations ias bootFileUrl dnsServers err =
          some p ∨
      p = b.MakeMsgInformationRequestReply tx clientId clientArchType bootFileUrl dnsServers ∨
      p = b.MakeMsgReleaseReply tx clientId ∨
      b.MakeMsgAdvertiseWithNoAddrsAvailable tx clientId err = some p) :
    p.Options.head? = some (MakeOption OptClientId clientId) ∧
      p.Options.filter (fun o => decide (o.ID = OptClientId)) =
        [MakeOption OptClientId clientId] ∧
      p.Options.filter (fun o => decide (o.ID = OptServerId)) =
        [MakeOption OptServerId b.ServerDuid] := by
  rcases hBuilt with h | h | h | h | h
  · subst h
    rw [MakeMsgAdvertise_eq]
    have key := canonical_client_server_id clientId b.ServerDuid
      (associations.map b.grantedBlock)
      (vendorClassOptions clientArchType ++ [MakeOption OptBootfileUrl bootFileUrl] ++
        (match preference with
          | some v => [MakeOption OptPreference v]
          | none => []) ++ [MakeDNSServersOption dnsServers])
      (by
        intro o ho
        obtain ⟨a, _, rfl⟩ := List.mem_map.mp ho
        simp)
      (by
        intro o ho
        simp only [List.mem_append, List.mem_singleton] at ho
        rcases ho with ((ho | ho) | ho) | ho
        · rw [vendorClassOptions_ID _ o ho]
          simp
        · subst ho
          simp
        · cases preference with
          | none => simp at ho
          | some v =>
            simp only [List.mem_singleton] at ho
            subst ho
            simp
        · subst ho
          simp)
    simpa [List.append_assoc] using key
  · obtain ⟨failed, hfailed, rfl⟩ := MakeMsgReply_shape _ _ _ _ _ _ _ _ _ _ h
    have key := canonical_client_server_id clientId b.ServerDuid
      (associations.map b.grantedBlock ++ failed)
      (vendorClassOptions clientArchType ++
        [MakeOption OptBootfileUrl bootFileUrl, MakeDNSServersOption dnsServers])
      (by
        intro o ho
        rcases List.mem_append.mp ho with ho | ho
        · obtain ⟨a, _, rfl⟩ := List.mem_map.mp ho
          simp
        · rw [hfailed o ho]
          simp)
      (by
        intro o ho
        rcases List.mem_append.mp ho with ho | ho
        · rw [vendorClassOptions_ID _ o ho]
          simp
        · simp only [List.mem_cons, List.mem_singleton, List.not_mem_nil, or_false] at ho
          rcases ho with rfl | rfl <;> simp)
    simpa [List.append_assoc] using key
  · subst h
    rw [MakeMsgInformationRequestReply_eq]
    have key := canonical_client_server_id clientId b.ServerDuid []
      (vendorClassOptions clientArchType ++
        [MakeOption OptBootfileUrl bootFileUrl, MakeDNSServersOption dnsServers])
      (by simp)
      (by
        intro o ho
        rcases List.mem_append.mp ho with ho | ho
        · rw [vendorClassOptions_ID _ o ho]
          simp
        · simp only [List.mem_cons, List.mem_singleton, List.not_mem_nil, or_false] at ho
          rcases ho with rfl | rfl <;> simp)
    simpa [List.append_assoc] using key
  · subst h
    exact canonical_client_server_id clientId b.ServerDuid []
      [MakeOption OptStatusCode ((makeBytes 19).take 2 ++
        copyBytes ((makeBytes 19).drop 2) (stringBytes "Release received."))]
      (by simp) (by simp)
  · cases err with
    | none => simp [PacketBuilder.MakeMsgAdvertiseWithNoAddrsAvailable] at h
    | some e =>
      simp only [PacketBuilder.MakeMsgAdvertiseWithNoAddrsAvailable, Options.AddOption,
        List.nil_append, List.cons_append, Option.some.injEq] at h
      subst h
      exact canonical_client_server_id clientId b.ServerDuid [] [MakeStatusOption 2 e.Error]
        (by simp) (by simp [DhcpOption.ID])

/-- C12 (witness): `sampleReply`, as `MakeMsgReply` builds it. -/
theorem assemblers_client_and_server_id_witness :
    sampleReply.Options.head? = some (MakeOption OptClientId sampleClientId) ∧
      sampleReply.Options.filter (fun o => decide (o.ID = OptClientId)) =
        [MakeOption OptClientId sampleClientId] ∧
      sampleReply.Options.filter (fun o => decide (o.ID = OptServerId)) =
        [MakeOption OptServerId sampleBuilder.ServerDuid] :=
  assemblers_client_and_server_id sampleBuilder (1, 2, 3) sampleClientId 0x10
    [IdentityAssociation.mk [0, 0, 0, 1] [32, 1, 13, 184]] [[0, 0, 0, 2]]
    [104, 116, 116, 112] none [[32, 1, 72, 96]] (some (GoError.mk "pool exhausted"))
    sampleReply (Or.inr (Or.inl (by decide)))

/-! The Advertise option order -/

/-- C13: the options of the packet `MakeMsgAdvertise` builds are, in order,
client-id, one IA block per association in the given order, server-id, the
vendor-class option if and only if the architecture type is 0x10, boot-file-url
(whatever the URL, the empty one included), the preference option if and only if
the given preference is non-nil, and the DNS-servers option, which is the last
option. -/
theorem MakeMsgAdvertise_option_order (b : PacketBuilder) (tx : TransactionID)
    (clientId : Bytes) (clientArchType : Nat) (associations : List IdentityAssociation)
    (bootFileUrl : Bytes) (preference : Option Bytes) (dnsServers : List IP) :
    (b.MakeMsgAdvertise tx clientId clientArchType associations bootFileUrl preference
        dnsServers).Options =
        [MakeOption OptClientId clientId] ++
        associations.map (fun a =>
          MakeIaNaOption a.InterfaceId b.calculateT1 b.calculateT2
            (MakeIaAddrOption a.IpAddress b.PreferredLifetime b.ValidLifetime)) ++
        [MakeOption OptServerId b.ServerDuid] ++
        (if clientArchType = 0x10 then [MakeOption OptVendorClass httpClientVendorClass]
          else []) ++
        [MakeOption OptBootfileUrl bootFileUrl] ++
        (match preference with
          | some v => [MakeOption OptPreference v]
          | none => []) ++
        [MakeDNSServersOption dnsServers] ∧
      ((∃ o ∈ (b.MakeMsgAdvertise tx clientId clientArchType associations bootFileUrl
          preference dnsServers).Options, o.ID = OptPreference) ↔ preference ≠ none) ∧
      MakeOption OptBootfileUrl bootFileUrl ∈
        (b.MakeMsgAdvertise tx clientId clientArchType associations bootFileUrl preference
          dnsServers).Options ∧
      (b.MakeMsgAdvertise tx clientId clientArchType associations bootFileUrl preference
        dnsServers).Options.getLast? = some (MakeDNSServersOption dnsServers) := by
  have hv : vendorClassOptions clientArchType =
      (if clientArchType = 0x10 then [MakeOption OptVendorClass httpClientVendorClass]
        else []) := by
    by_cases h : clientArchType = 0x10
    · rw [vendorClassOptions_of_eq h, if_pos h]
    · rw [vendorClassOptions_of_ne h, if_neg h]
  refine ⟨?_, ?_, ?_, ?_⟩
  · rw [MakeMsgAdvertise_eq, hv]
    rfl
  · rw [MakeMsgAdvertise_eq]
    cases preference with
    | some v =>
      refine ⟨fun _ => by simp, fun _ => ⟨MakeOption OptPreference v, by simp, rfl⟩⟩
    | none =>
      refine ⟨?_, fun hp => absurd rfl hp⟩
      rintro ⟨o, ho, hID⟩
      exfalso
      have hno : ∀ o' ∈ [MakeOption OptClientId clientId] ++
          associations.map b.grantedBlock ++ [MakeOption OptServerId b.ServerDuid] ++
          vendorClassOptions clientArchType ++ [MakeOption OptBootfileUrl bootFileUrl] ++
          [] ++ [MakeDNSServersOption dnsServers], o'.ID ≠ OptPreference := by
        by_cases h : clientArchType = 0x10
        · simp [vendorClassOptions_of_eq h, or_imp, forall_and]
        · simp [vendorClassOptions_of_ne h, or_imp, forall_and]
      exact hno o ho hID
  · rw [MakeMsgAdvertise_eq]
    simp
  · rw [MakeMsgAdvertise_eq]
    exact List.getLast?_concat _

/-! The Information-Request reply -/

/-- C14: an Information-Request whose boot-URL lookup succeeds is answered with a
nil error and a Reply whose options are exactly, in order, client-id, server-id,
the vendor-class option if the architecture type is 0x10, boot-file-url and DNS
servers; none of them is an IA block, and the address pool is not called. -/
theorem BuildResponse_information_request (acc : OptionsAccessors) (b : PacketBuilder)
    (pkt : Packet) (configuration : BootConfiguration) (addresses : AddressPool)
    (id bootFileUrl : Bytes)
    (hType : pkt.MsgType = MsgInformationRequest)
    (hId : b.ExtractLLAddressOrId (acc.ClientId pkt.Options) = some id)
    (hUrl : configuration.GetBootUrl id (acc.ClientArchType pkt.Options) =
      (bootFileUrl, none)) :
    b.BuildResponse acc pkt configuration addresses =
        { calls := [Call.GetBootUrl id (acc.ClientArchType pkt.Options), Call.GetRecursiveDns],
          outcome := Outcome.returned
            (some { MsgType := MsgReply, TransactionID := pkt.TransactionID,
                    Options :=
                      [MakeOption OptClientId (acc.ClientId pkt.Options),
                       MakeOption OptServerId b.ServerDuid] ++
                      (if acc.ClientArchType pkt.Options = 0x10 then
                        [MakeOption OptVendorClass httpClientVendorClass] else []) ++
                      [MakeOption OptBootfileUrl bootFileUrl,
                       MakeDNSServersOption configuration.GetRecursiveDns] })
            none } ∧
      (∀ o ∈ [MakeOption OptClientId (acc.ClientId pkt.Options),
              MakeOption OptServerId b.ServerDuid] ++
            (if acc.ClientArchType pkt.Options = 0x10 then
              [MakeOption OptVendorClass httpClientVendorClass] else []) ++
            [MakeOption OptBootfileUrl bootFileUrl,
             MakeDNSServersOption configuration.GetRecursiveDns],
        o.ID ≠ OptIaNa) ∧
      ∀ c ∈ (b.BuildResponse acc pkt configuration addresses).calls,
        ∀ clientId ias, c ≠ Call.ReserveAddresses clientId ias ∧
          c ≠ Call.ReleaseAddresses clientId ias := by
  have hv : vendorClassOptions (acc.ClientArchType pkt.Options) =
      (if acc.ClientArchType pkt.Options = 0x10 then
        [MakeOption OptVendorClass httpClientVendorClass] else []) := by
    by_cases h : acc.ClientArchType pkt.Options = 0x10
    · rw [vendorClassOptions_of_eq h, if_pos h]
    · rw [vendorClassOptions_of_ne h, if_neg h]
  have hRun : b.BuildResponse acc pkt configuration addresses =
      { calls := [Call.GetBootUrl id (acc.ClientArchType pkt.Options), Call.GetRecursiveDns],
        outcome := Outcome.returned
          (some { MsgType := MsgReply, TransactionID := pkt.TransactionID,
                  Options :=
                    [MakeOption OptClientId (acc.ClientId pkt.Options),
                     MakeOption OptServerId b.ServerDuid] ++
                    (if acc.ClientArchType pkt.Options = 0x10 then
                      [MakeOption OptVendorClass httpClientVendorClass] else []) ++
                    [MakeOption OptBootfileUrl bootFileUrl,
                     MakeDNSServersOption configuration.GetRecursiveDns] })
          none } := by
    simp only [PacketBuilder.BuildResponse, hType, hId, hUrl,
      MakeMsgInformationRequestReply_eq, hv]
  refine ⟨hRun, ?_, ?_⟩
  · intro o ho
    by_cases h : acc.ClientArchType pkt.Options = 0x10
    · simp only [if_pos h, List.cons_append, List.nil_append, List.mem_cons,
        List.not_mem_nil, or_false] at ho
      rcases ho with rfl | rfl | rfl | rfl | rfl <;> simp
    · simp only [if_neg h, List.cons_append, List.nil_append, List.append_nil, List.mem_cons,
        List.not_mem_nil, or_false] at ho
      rcases ho with rfl | rfl | rfl | rfl <;> simp
  · rw [hRun]
    intro c hc clientId ias
    simp only [List.mem_cons, List.not_mem_nil, or_false] at hc
    rcases hc with rfl | rfl <;> exact ⟨by simp, by simp⟩

/-- C14 (witness): the sample Information-Request, architecture type 0x10. -/
theorem BuildResponse_information_request_witness :
    sampleBuilder.BuildResponse sampleAccessors (samplePacket MsgInformationRequest)
          sampleConfiguration partialPool =
        { calls := [Call.GetBootUrl [2, 4, 6, 8, 10, 12]
                      (sampleAccessors.ClientArchType
                        (samplePacket MsgInformationRequest).Options),
                    Call.GetRecursiveDns],
          outcome := Outcome.returned
            (some { MsgType := MsgReply,
                    TransactionID := (samplePacket MsgInformationRequest).TransactionID,
                    Options :=
                      [MakeOption OptClientId
                         (sampleAccessors.ClientId (samplePacket MsgInformationRequest).Options),
                       MakeOption OptServerId sampleBuilder.ServerDuid] ++
                      (if sampleAccessors.ClientArchType
                          (samplePacket MsgInformationRequest).Options = 0x10 then
                        [MakeOption OptVendorClass httpClientVendorClass] else []) ++
                      [MakeOption OptBootfileUrl [104, 116, 116, 112],
                       MakeDNSServersOption sampleConfiguration.GetRecursiveDns] })
            none } ∧
      (∀ o ∈ [MakeOption OptClientId
                (sampleAccessors.ClientId (samplePacket MsgInformationRequest).Options),
              MakeOption OptServerId sampleBuilder.ServerDuid] ++
            (if sampleAccessors.ClientArchType
                (samplePacket MsgInformationRequest).Options = 0x10 then
              [MakeOption OptVendorClass httpClientVendorClass] else []) ++
            [MakeOption OptBootfileUrl [104, 116, 116, 112],
             MakeDNSServersOption sampleConfiguration.GetRecursiveDns],
        o.ID ≠ OptIaNa) ∧
      ∀ c ∈ (sampleBuilder.BuildResponse sampleAccessors (samplePacket MsgInformationRequest)
          sampleConfiguration partialPool).calls,
        ∀ clientId ias, c ≠ Call.ReserveAddresses clientId ias ∧
          c ≠ Call.ReleaseAddresses clientId ias :=
  BuildResponse_information_request sampleAccessors sampleBuilder
    (samplePacket MsgInformationRequest) sampleConfiguration partialPool
    [2, 4, 6, 8, 10, 12] [104, 116, 116, 112] rfl (by decide) rfl

/-! Message types the server does not service -/

/-- C15: for a request that is neither a Solicit, a Request, an
Information-Request nor a Release, `BuildResponse` returns no packet and no
error, and calls no collaborator. -/
theorem BuildResponse_other_type (acc : OptionsAccessors) (b : PacketBuilder) (pkt : Packet)
    (configuration : BootConfiguration) (addresses : AddressPool)
    (hSolicit : pkt.MsgType ≠ MsgSolicit) (hRequest : pkt.MsgType ≠ MsgRequest)
    (hInfo : pkt.MsgType ≠ MsgInformationRequest) (hRelease : pkt.MsgType ≠ MsgRelease) :
    b.BuildResponse acc pkt configuration addresses =
      { calls := [], outcome := Outcome.returned none none } := by
  cases hT : pkt.MsgType with
  | MsgSolicit => exact absurd hT hSolicit
  | MsgRequest => exact absurd hT hRequest
  | MsgInformationRequest => exact absurd hT hInfo
  | MsgRelease => exact absurd hT hRelease
  | MsgAdvertise => simp [PacketBuilder.BuildResponse, hT]
  | MsgReply => simp [PacketBuilder.BuildResponse, hT]
  | MsgOther code => simp [PacketBuilder.BuildResponse, hT]

/-- C15 (witness): an Advertise sent to the server. -/
theorem BuildResponse_other_type_witness :
    sampleBuilder.BuildResponse sampleAccessors (samplePacket MsgAdvertise)
        sampleConfiguration partialPool =
      { calls := [], outcome := Outcome.returned none none } :=
  BuildResponse_other_type sampleAccessors sampleBuilder (samplePacket MsgAdvertise)
    sampleConfiguration partialPool (by decide) (by decide) (by decide) (by decide)

/-! The identifier extracted from the client id -/

/-- C16: for a client id whose first two bytes are `b0` and `b1`, with
`b0 * 256 + b1` their big-endian value: when that value is 1 and the client id
has at least 8 bytes, the result is the client id without its first 8 bytes; when
it is 3 and there are at least 4 bytes, without its first 4 bytes; for every
other value, without its first 2 bytes. -/
theorem ExtractLLAddressOrId_skips_header (b : PacketBuilder) (c : Bytes) (b0 b1 : UInt8)
    (hHead : c.take 2 = [b0, b1]) :
    (b0.toNat * 256 + b1.toNat = 1 → 8 ≤ c.length →
        b.ExtractLLAddressOrId c = some (c.drop 8)) ∧
      (b0.toNat * 256 + b1.toNat = 3 → 4 ≤ c.length →
        b.ExtractLLAddressOrId c = some (c.drop 4)) ∧
      (b0.toNat * 256 + b1.toNat ≠ 1 → b0.toNat * 256 + b1.toNat ≠ 3 →
        b.ExtractLLAddressOrId c = some (c.drop 2)) := by
  match c, hHead with
  | x :: y :: rest, hHead =>
    simp only [List.take_succ_cons, List.take_zero, List.cons.injEq, and_true] at hHead
    obtain ⟨rfl, rfl⟩ := hHead
    refine ⟨fun h1 h8 => ?_, fun h3 h4 => ?_, fun h1 h3 => ?_⟩
    · simp only [PacketBuilder.ExtractLLAddressOrId, h1, if_true, h8]
    · have h31 : ¬ ((3 : Nat) = 1) := by decide
      simp only [PacketBuilder.ExtractLLAddressOrId, h3, h31, if_true, if_false, h4]
    · simp only [PacketBuilder.ExtractLLAddressOrId, h1, h3, if_false]

/-- C16 (witness): a DUID-LLT client id loses its eight header bytes, a DUID-LL
client id its four. -/
theorem ExtractLLAddressOrId_skips_header_witness :
    sampleBuilder.ExtractLLAddressOrId sampleClientIdLLT = some [2, 4, 6, 8, 10, 12] ∧
      sampleBuilder.ExtractLLAddressOrId sampleClientId = some [2, 4, 6, 8, 10, 12] :=
  ⟨(ExtractLLAddressOrId_skips_header sampleBuilder sampleClientIdLLT 0 1 rfl).1
      (by decide) (by decide),
    (ExtractLLAddressOrId_skips_header sampleBuilder sampleClientId 0 3 rfl).2.1
      (by decide) (by decide)⟩

/-- C17: `ExtractLLAddressOrId` panics exactly when the client id is shorter than
its header: fewer than 2 bytes, or DUID type 1 with fewer than 8 bytes, or DUID
type 3 with fewer than 4 bytes. In every other case it returns a value. -/
theorem ExtractLLAddressOrId_fails_iff (b : PacketBuilder) (c : Bytes) :
    (b.ExtractLLAddressOrId c = none ↔
      c.length < 2 ∨
        ∃ b0 b1 rest, c = b0 :: b1 :: rest ∧
          ((b0.toNat * 256 + b1.toNat = 1 ∧ c.length < 8) ∨
            (b0.toNat * 256 + b1.toNat = 3 ∧ c.length < 4))) ∧
      ((b.ExtractLLAddressOrId c).isSome ↔
        2 ≤ c.length ∧
          ∀ b0 b1 rest, c = b0 :: b1 :: rest →
            (b0.toNat * 256 + b1.toNat = 1 → 8 ≤ c.length) ∧
              (b0.toNat * 256 + b1.toNat = 3 → 4 ≤ c.length)) := by
  have hIff : b.ExtractLLAddressOrId c = none ↔
      c.length < 2 ∨
        ∃ b0 b1 rest, c = b0 :: b1 :: rest ∧
          ((b0.toNat * 256 + b1.toNat = 1 ∧ c.length < 8) ∨
            (b0.toNat * 256 + b1.toNat = 3 ∧ c.length < 4)) := by
    match c with
    | [] => simp [PacketBuilder.ExtractLLAddressOrId]
    | [x] => simp [PacketBuilder.ExtractLLAddressOrId]
    | x :: y :: rest =>
      have hlen : ¬ ((x :: y :: rest).length < 2) := by simp
      simp only [PacketBuilder.ExtractLLAddressOrId, hlen, false_or, List.cons.injEq]
      constructor
      · intro h
        refine ⟨x, y, rest, ⟨rfl, rfl, rfl⟩, ?_⟩
        by_cases h1 : x.toNat * 256 + y.toNat = 1
        · left
          refine ⟨h1, ?_⟩
          simp [h1] at h
          simp only [List.length_cons]
          omega
        · by_cases h3 : x.toNat * 256 + y.toNat = 3
          · right
            refine ⟨h3, ?_⟩
            simp [h3] at h
            simp only [List.length_cons]
            omega
          · simp [h1, h3] at h
      · rintro ⟨b0, b1, r, ⟨rfl, rfl, rfl⟩, (⟨h1, h8⟩ | ⟨h3, h4⟩)⟩
        · have h8n : ¬ (8 ≤ (x :: y :: rest).length) := by omega
          simp only [h1, if_true, h8n, if_false]
        · have h31 : ¬ ((3 : Nat) = 1) := by decide
          have h4n : ¬ (4 ≤ (x :: y :: rest).length) := by omega
          simp only [h3, h31, if_true, h4n, if_false]
  refine ⟨hIff, ?_⟩
  rw [← Option.not_isSome_iff_eq_none] at hIff
  rw [← not_iff_not, hIff]
  constructor
  · rintro (h | ⟨b0, b1, rest, hc, h⟩) hAll
    · omega
    · have := hAll.2 b0 b1 rest hc
      rcases h with ⟨h1, h8⟩ | ⟨h3, h4⟩
      · have := this.1 h1
        omega
      · have := this.2 h3
        omega
  · intro h
    by_cases hlen : c.length < 2
    · exact Or.inl hlen
    · right
      by_contra hno
      apply h
      refine ⟨by omega, fun b0 b1 rest hc => ⟨fun h1 => ?_, fun h3 => ?_⟩⟩
      · by_contra h8
        exact hno ⟨b0, b1, rest, hc, Or.inl ⟨h1, by omega⟩⟩
      · by_contra h4
        exact hno ⟨b0, b1, rest, hc, Or.inr ⟨h3, by omega⟩⟩

/-! The matcher with nothing granted, and with any hash function -/

/-- C18: with no granted association the matcher returns the requested list
unchanged; hence a Request whose boot-URL lookup succeeds and whose reservation
returns no association and the error `e` is answered with a Reply holding one
failure IA block per requested identifier, in request order, and no IA block
with an address. -/
theorem BuildResponse_request_nothing_granted (acc : OptionsAccessors) (b : PacketBuilder)
    (pkt : Packet) (configuration : BootConfiguration) (addresses : AddressPool)
    (id bootFileUrl : Bytes) (e : GoError) (R : List Bytes)
    (hType : pkt.MsgType = MsgRequest)
    (hId : b.ExtractLLAddressOrId (acc.ClientId pkt.Options) = some id)
    (hUrl : configuration.GetBootUrl id (acc.ClientArchType pkt.Options) = (bootFileUrl, none))
    (hRes : addresses.ReserveAddresses (acc.ClientId pkt.Options) (acc.IaNaIds pkt.Options) =
      ([], some e)) :
    iasWithoutAddesses [] R = R ∧
      (b.BuildResponse acc pkt configuration addresses).outcome =
        Outcome.returned
          (some { MsgType := MsgReply, TransactionID := pkt.TransactionID,
                  Options :=
                    [MakeOption OptClientId (acc.ClientId pkt.Options)] ++
                    (acc.IaNaIds pkt.Options).map (fun ia =>
                      MakeIaNaOption ia b.calculateT1 b.calculateT2
                        (MakeStatusOption 2 e.Error)) ++
                    [MakeOption OptServerId b.ServerDuid] ++
                    (if acc.ClientArchType pkt.Options = 0x10 then
                      [MakeOption OptVendorClass httpClientVendorClass] else []) ++
                    [MakeOption OptBootfileUrl bootFileUrl,
                     MakeDNSServersOption configuration.GetRecursiveDns] })
          (some e) := by
  have hnil : ∀ L : List Bytes, iasWithoutAddesses [] L = L := by
    intro L
    rw [iasWithoutAddesses_eq_filter]
    simp
  have hv : vendorClassOptions (acc.ClientArchType pkt.Options) =
      (if acc.ClientArchType pkt.Options = 0x10 then
        [MakeOption OptVendorClass httpClientVendorClass] else []) := by
    by_cases h : acc.ClientArchType pkt.Options = 0x10
    · rw [vendorClassOptions_of_eq h, if_pos h]
    · rw [vendorClassOptions_of_ne h, if_neg h]
  refine ⟨hnil R, ?_⟩
  simp only [PacketBuilder.BuildResponse, hType, hId, hUrl, hRes, hnil, MakeMsgReply_some,
    Outcome.ofPacket, hv, List.map_nil, List.append_nil]
  rfl

/-- C18 (witness): the sample Request against a pool that grants nothing. -/
theorem BuildResponse_request_nothing_granted_witness :
    iasWithoutAddesses [] [[0, 0, 0, 1], [0, 0, 0, 2], [0, 0, 0, 1]] =
        [[0, 0, 0, 1], [0, 0, 0, 2], [0, 0, 0, 1]] ∧
      (sampleBuilder.BuildResponse sampleAccessors (samplePacket MsgRequest)
          sampleConfiguration emptyPool).outcome =
        Outcome.returned
          (some { MsgType := MsgReply,
                  TransactionID := (samplePacket MsgRequest).TransactionID,
                  Options :=
                    [MakeOption OptClientId
                      (sampleAccessors.ClientId (samplePacket MsgRequest).Options)] ++
                    (sampleAccessors.IaNaIds (samplePacket MsgRequest).Options).map (fun ia =>
                      MakeIaNaOption ia sampleBuilder.calculateT1 sampleBuilder.calculateT2
                        (MakeStatusOption 2 (GoError.mk "pool exhausted").Error)) ++
                    [MakeOption OptServerId sampleBuilder.ServerDuid] ++
                    (if sampleAccessors.ClientArchType (samplePacket MsgRequest).Options = 0x10
                      then [MakeOption OptVendorClass httpClientVendorClass] else []) ++
                    [MakeOption OptBootfileUrl [104, 116, 116, 112],
                     MakeDNSServersOption sampleConfiguration.GetRecursiveDns] })
          (some (GoError.mk "pool exhausted")) :=
  BuildResponse_request_nothing_granted sampleAccessors sampleBuilder
    (samplePacket MsgRequest) sampleConfiguration emptyPool [2, 4, 6, 8, 10, 12]
    [104, 116, 116, 112] (GoError.mk "pool exhausted")
    [[0, 0, 0, 1], [0, 0, 0, 2], [0, 0, 0, 1]] rfl (by decide) rfl rfl

theorem mem_hashKeysWith (hash : Bytes → Nat) (G : List IdentityAssociation)
    (init : List Nat) (k : Nat) :
    k ∈ G.foldl (fun m association => hash association.InterfaceId :: m) init ↔
      k ∈ init ∨ ∃ a ∈ G, hash a.InterfaceId = k := by
  induction G generalizing init with
  | nil => simp
  | cons a G ih =>
    simp only [List.foldl_cons, ih, List.mem_cons, exists_eq_or_imp]
    constructor
    · rintro ((h | h) | h)
      · exact Or.inr (Or.inl h.symm)
      · exact Or.inl h
      · exact Or.inr (Or.inr h)
    · rintro (h | h | h)
      · exact Or.inl (Or.inr h)
      · exact Or.inl (Or.inl h.symm)
      · exact Or.inr h

theorem iasWithoutAddessesWith_eq_filter (hash : Bytes → Nat) (G : List IdentityAssociation)
    (R : List Bytes) :
    iasWithoutAddessesWith hash G R =
      R.filter (fun ia => decide (∀ a ∈ G, hash a.InterfaceId ≠ hash ia)) := by
  unfold iasWithoutAddessesWith
  simp only [foldl_append_unless, List.nil_append]
  apply List.filter_congr
  intro ia _
  simp [mem_hashKeysWith]

/-- C19: whatever the hash function, and with nothing assumed of `G` and `R`, the
matcher returns a sublist of `R` that holds every element of `R` whose hash
differs from the hash of every `InterfaceId` of `G`; `iasWithoutAddesses` is the
matcher with `calculateIaIdHash` as its hash function. -/
theorem iasWithoutAddesses_sublist (hash : Bytes → Nat) (G : List IdentityAssociation)
    (R : List Bytes) :
    List.Sublist (iasWithoutAddessesWith hash G R) R ∧
      (∀ ia ∈ R, (∀ a ∈ G, hash a.InterfaceId ≠ hash ia) →
        ia ∈ iasWithoutAddessesWith hash G R) ∧
      iasWithoutAddessesWith calculateIaIdHash G R = iasWithoutAddesses G R ∧
      List.Sublist (iasWithoutAddesses G R) R ∧
      (∀ ia ∈ R, (∀ a ∈ G, calculateIaIdHash a.InterfaceId ≠ calculateIaIdHash ia) →
        ia ∈ iasWithoutAddesses G R) := by
  refine ⟨?_, ?_, rfl, ?_, ?_⟩
  · rw [iasWithoutAddessesWith_eq_filter]
    exact List.filter_sublist R
  · intro ia hia hne
    rw [iasWithoutAddessesWith_eq_filter, List.mem_filter]
    exact ⟨hia, by simpa using hne⟩
  · rw [iasWithoutAddesses_eq_filter]
    exact List.filter_sublist R
  · intro ia hia hne
    rw [mem_iasWithoutAddesses]
    exact ⟨hia, hne⟩

/-! The timers below the wrap-around -/

/-- C20: for a preferred lifetime of at most 2^30 - 1 the `uint32` product
`P * 4` does not wrap, `calculateT2` is `floor (4 * P / 5)`, and
T1 ≤ T2 ≤ P. -/
theorem calculateT2_exact_below_two_pow_30 (b : PacketBuilder)
    (hP : b.PreferredLifetime ≤ 1073741823) :
    b.PreferredLifetime * 4 % 2 ^ 32 = b.PreferredLifetime * 4 ∧
      b.calculateT2 = 4 * b.PreferredLifetime / 5 ∧
      b.calculateT1 ≤ b.calculateT2 ∧
      b.calculateT2 ≤ b.PreferredLifetime := by
  have h32 : (2 : Nat) ^ 32 = 4294967296 := by norm_num
  have hmod : b.PreferredLifetime * 4 % 2 ^ 32 = b.PreferredLifetime * 4 := by
    rw [h32]
    exact Nat.mod_eq_of_lt (by omega)
  refine ⟨hmod, ?_, ?_, ?_⟩
  · simp only [PacketBuilder.calculateT2, hmod]
    omega
  · simp only [PacketBuilder.calculateT1, PacketBuilder.calculateT2, hmod]
    omega
  · simp only [PacketBuilder.calculateT2, hmod]
    omega

/-- C20 (witness): the largest preferred lifetime below the wrap-around. -/
theorem calculateT2_exact_below_two_pow_30_witness :
    (MakePacketBuilder [] 1073741823 1073741823).PreferredLifetime * 4 % 2 ^ 32 =
        (MakePacketBuilder [] 1073741823 1073741823).PreferredLifetime * 4 ∧
      (MakePacketBuilder [] 1073741823 1073741823).calculateT2 =
        4 * (MakePacketBuilder [] 1073741823 1073741823).PreferredLifetime / 5 ∧
      (MakePacketBuilder [] 1073741823 1073741823).calculateT1 ≤
        (MakePacketBuilder [] 1073741823 1073741823).calculateT2 ∧
      (MakePacketBuilder [] 1073741823 1073741823).calculateT2 ≤
        (MakePacketBuilder [] 1073741823 1073741823).PreferredLifetime :=
  calculateT2_exact_below_two_pow_30 (MakePacketBuilder [] 1073741823 1073741823)
    (by decide)

end dhcp6
